import Mathlib

/-!
# Verification of the source-stack-desktop batch/auth core

Shallow embedding, in Lean 4, of the coordination core of the
`source-stack-desktop` repository (`src/src-tauri/src/core/`):

* error taxonomy (`errors.rs`),
* OAuth token classification, refresh and manual-flow completion (`auth.rs`),
* the batch-job orchestrator and its per-file retry procedure (`service.rs`),
* the JSON job store's retention sweep and listing (`job_store.rs`).

Modelling conventions:

* External I/O (HTTP responses, the keyring, the `url` crate's parser,
  per-attempt download outcomes, clock readings and cancellation signals)
  is represented by explicit oracle parameters, so every embedded function
  is a pure, executable Lean function of its inputs.
* Rust `i32`/`usize` counters that the code keeps nonnegative are modelled
  as `Nat`; `f64` quantities that the claims treat arithmetically
  (retry delays, progress percentages) are modelled as `ℚ` respectively as
  exact `Nat` floor division — the source computes
  `((processed as f64) * 100.0 / total as f64).floor() as i32`, which for the
  magnitudes involved (counts far below 2^50) coincides with `Nat` division.
* `chrono` timestamps are modelled as `Int` (seconds); durations likewise.
* Concurrent fan-out (`buffer_unordered`) may permute the per-file results
  of one batch; the model processes a batch in file order.  All properties
  proved below (counts, row blankness, status fields) are invariant under
  any permutation of one batch's results.
-/

/-! ## String helpers

`strContains hay needle` models Rust `str::contains` (substring test), and
`toLowerStr` models `str::to_ascii_lowercase` (Lean's `Char.toLower` also
lowercases exactly the ASCII uppercase letters). -/

def charListIsInfix (needle : List Char) : List Char → Bool
  | [] => needle.isEmpty
  | c :: rest => needle.isPrefixOf (c :: rest) || charListIsInfix needle rest

def strContains (hay needle : String) : Bool :=
  charListIsInfix needle.toList hay.toList

def toLowerStr (s : String) : String :=
  String.mk (s.toList.map Char.toLower)

/-- Rust `str::trim` (leading and trailing whitespace removed), as a
structurally recursive function on the character list. -/
def trimList (l : List Char) : List Char :=
  ((l.dropWhile Char.isWhitespace).reverse.dropWhile Char.isWhitespace).reverse

def strTrim (s : String) : String :=
  String.mk (trimList s.toList)

/-- Rust `str::starts_with`. -/
def strStartsWith (s prefixStr : String) : Bool :=
  prefixStr.toList.isPrefixOf s.toList

/-! ## Error taxonomy — `errors.rs` -/

inductive AuthErrorCode
  | missingClientId
  | signInRequired
  | reauthRequired
  | providerError
  | loopbackUnavailable
  | loopbackTimeout
  | invalidCallback
  | stateMismatch
  | challengeExpired
  | sessionNotFound
  deriving DecidableEq, Repr

inductive CoreError
  | googleApi (status : Nat) (body : String)
  | missingGoogleClientId
  | auth (code : AuthErrorCode) (message : String)
  | jobNotFound (jobId : String)
  | jobNotCompleted (jobId : String)
  | invalidRequest (message : String)
  deriving DecidableEq, Repr

/-- `CoreError::is_retryable`. -/
def CoreError.isRetryable : CoreError → Bool
  | .googleApi status _ => status == 429 || status ≥ 500
  | _ => false

/-- The `thiserror` `Display` messages of `CoreError` (the `#[error(...)]`
attributes in `errors.rs`). -/
def CoreError.toMessage : CoreError → String
  | .googleApi status body =>
      "Google API request failed with status " ++ toString status ++ ": " ++ body
  | .missingGoogleClientId =>
      "Google OAuth is not configured in this app build. Contact Dipesh from engineering team."
  | .auth _ message => message
  | .jobNotFound jobId => "Job not found: " ++ jobId
  | .jobNotCompleted jobId => "Job " ++ jobId ++ " is not completed"
  | .invalidRequest message => "Invalid request: " ++ message

/-- A value of Rust type `anyhow::Error`: either a boxed `CoreError`
(recoverable by `downcast_ref`), a boxed `reqwest::Error` (characterised by
its timeout/connect flags and optional HTTP status), or any other error,
kept only as its display string. -/
inductive AnyErr
  | core (e : CoreError)
  | reqwest (isTimeout isConnect : Bool) (status : Option Nat) (msg : String)
  | other (msg : String)
  deriving DecidableEq, Repr

def AnyErr.toMessage : AnyErr → String
  | .core e => e.toMessage
  | .reqwest _ _ _ msg => msg
  | .other msg => msg

/-! ## Re-auth classification — `auth.rs` -/

/-- The fields serde extracts into `OAuthErrorResponse`. -/
structure OAuthErrorResponse where
  error : Option String
  errorDescription : Option String
  deriving DecidableEq, Repr

/-- An HTTP response body: the raw text together with the result of
`serde_json::from_str::<OAuthErrorResponse>(raw)` (`none` when the body is
not a JSON object from which serde can extract the two optional fields). -/
structure HttpBody where
  raw : String
  parsedError : Option OAuthErrorResponse
  deriving DecidableEq, Repr

/-- `is_reauth_response` (`auth.rs`): HTTP 400/401 and either the parsed
JSON error/description carries an `invalid_grant`/`invalid_token` marker
(or the description merely contains `token`), or the raw body, lowercased,
contains `invalid_grant`/`invalid_token`. -/
def isReauthResponse (status : Nat) (body : HttpBody) : Bool :=
  if status ≠ 400 && status ≠ 401 then false
  else
    let parsedHit :=
      match body.parsedError with
      | some parsed =>
          let err := toLowerStr (parsed.error.getD "")
          let description := toLowerStr (parsed.errorDescription.getD "")
          strContains err "invalid_grant" || strContains err "invalid_token" ||
            strContains description "invalid_grant" || strContains description "token"
      | none => false
    if parsedHit then true
    else
      let lowered := toLowerStr body.raw
      strContains lowered "invalid_grant" || strContains lowered "invalid_token"

/-- `is_reauth_error` (`auth.rs`): the error downcasts to
`CoreError::Auth { code: ReauthRequired, .. }`. -/
def isReauthError : AnyErr → Bool
  | .core (.auth .reauthRequired _) => true
  | _ => false

/-! ## Token envelope and settings — `auth.rs`, `models.rs` -/

/-- `GoogleTokenEnvelope` (`auth.rs`); `expiresAtUtc` in seconds. -/
structure TokenEnvelope where
  accessToken : String
  refreshToken : Option String
  expiresAtUtc : Int
  email : Option String
  deriving DecidableEq, Repr

/-- `GoogleTokenEnvelope::is_expiring_within` at the 5-minute window the
code always uses: `expires_at_utc <= now + 300 s`. -/
def TokenEnvelope.isExpiringWithin (t : TokenEnvelope) (now window : Int) : Bool :=
  t.expiresAtUtc ≤ now + window

/-- `RuntimeSettings` (`models.rs`).  `retry_delay_seconds` is `f64` in the
source, modelled exactly as `ℚ`. -/
structure RuntimeSettings where
  googleClientId : String
  googleClientSecret : Option String
  tesseractPath : String
  maxConcurrentRequests : Nat
  spreadsheetBatchSize : Nat
  maxRetries : Nat
  retryDelaySeconds : ℚ
  jobRetentionHours : Int
  deriving DecidableEq, Repr

/-- `validate_settings`: fails with `MissingGoogleClientId` when the
configured client id is blank. -/
def validateSettings (settings : RuntimeSettings) : Except AnyErr Unit :=
  if strTrim settings.googleClientId = "" then .error (.core .missingGoogleClientId)
  else .ok ()

/-- The successfully deserialized fields of a token-endpoint response
(`TokenResponse` in `auth.rs`). -/
structure TokenResponsePayload where
  accessToken : String
  refreshToken : Option String
  expiresIn : Int
  deriving DecidableEq, Repr

/-- One observed HTTP exchange with the token endpoint: status, body, and
the result of `serde_json::from_str::<TokenResponse>(body)`. -/
structure TokenHttpResponse where
  status : Nat
  body : HttpBody
  payload : Option TokenResponsePayload
  deriving DecidableEq, Repr

/-- `reqwest::StatusCode::is_success`. -/
def statusIsSuccess (status : Nat) : Bool :=
  200 ≤ status && status < 300

/-- `GoogleAuthService::refresh_token`, as a function of the provider's
response (`resp`), the refresh token sent, the wall clock, and the
best-effort e-mail fetch (`emailFetch = none` models a swallowed failure).
On a non-success status the failure is classified by `isReauthResponse`;
on success the refresh token is carried forward when the provider returns
none. -/
def refreshTokenModel (resp : TokenHttpResponse) (refreshToken : String)
    (now : Int) (emailFetch : Option String) : Except AnyErr TokenEnvelope :=
  if ¬ statusIsSuccess resp.status then
    if isReauthResponse resp.status resp.body then
      .error (.core (.auth .reauthRequired "Google session is no longer valid."))
    else
      .error (.core (.auth .providerError
        ("Google token refresh failed with status " ++ toString resp.status ++ ".")))
  else
    match resp.payload with
    | none => .error (.other "serde_json deserialization of TokenResponse failed")
    | some payload =>
        .ok { accessToken := payload.accessToken
              refreshToken := (payload.refreshToken).orElse (fun _ => some refreshToken)
              expiresAtUtc := now + payload.expiresIn
              email := emailFetch }

/-- `GoogleAuthService::get_access_token_non_interactive`, as a function of
the stored token (`store`), the wall clock, and the refresh-endpoint
oracle.  Returns the call's result together with the token store contents
after the call (`none` = cleared). -/
def getAccessTokenNonInteractive (settings : RuntimeSettings)
    (store : Option TokenEnvelope) (now : Int) (resp : TokenHttpResponse)
    (emailFetch : Option String) : Except AnyErr String × Option TokenEnvelope :=
  match validateSettings settings with
  | .error e => (.error e, store)
  | .ok _ =>
    match store with
    | none =>
        (.error (.core (.auth .signInRequired "Google sign-in required.")), none)
    | some cached =>
        if ¬ cached.isExpiringWithin now 300 then (.ok cached.accessToken, store)
        else
          match cached.refreshToken with
          | none =>
              (.error (.core (.auth .reauthRequired
                "Google session expired. Sign in again.")), store)
          | some refreshToken =>
              match refreshTokenModel resp refreshToken now emailFetch with
              | .ok refreshed => (.ok refreshed.accessToken, some refreshed)
              | .error err =>
                  if isReauthError err then
                    (.error (.core (.auth .reauthRequired
                      "Google session expired or revoked. Sign in again.")), none)
                  else
                    (.error err, store)

/-! ## Callback parsing — `auth.rs` -/

/-- `parse_callback_url_or_code`.  `parseUrl` abstracts `Url::parse`
followed by `query_pairs()`: `none` models a parse error, `some pairs`
the decoded query pairs in order.  The `for` loop over the pairs keeps the
last occurrence of each of `code`/`state`/`error`, modelled by `foldl`. -/
def lastQueryParam (pairs : List (String × String)) (key : String) : String :=
  pairs.foldl (fun acc kv => if kv.1 = key then kv.2 else acc) ""

def parseCallbackUrlOrCode (parseUrl : String → Option (List (String × String)))
    (input expectedState : String) : Except CoreError String :=
  let trimmed := strTrim input
  if trimmed = "" then
    .error (.auth .invalidCallback "Callback URL or authorization code is required.")
  else if strStartsWith trimmed "http://" || strStartsWith trimmed "https://" then
    match parseUrl trimmed with
    | none => .error (.auth .invalidCallback "Invalid callback URL.")
    | some pairs =>
        let code := lastQueryParam pairs "code"
        let state := lastQueryParam pairs "state"
        let oauthError := lastQueryParam pairs "error"
        if oauthError ≠ "" then
          .error (.auth .invalidCallback "Google sign-in was not completed.")
        else if expectedState ≠ "" && state ≠ "" && state ≠ expectedState then
          .error (.auth .stateMismatch "Callback state mismatch.")
        else if strTrim code = "" then
          .error (.auth .invalidCallback "Authorization code not found in callback.")
        else
          .ok code
  else
    .ok trimmed

/-! ## Data model — `models.rs` -/

/-- `ParsedCandidate`; `confidence` is `f64` in the source, modelled as `ℚ`. -/
structure ParsedCandidate where
  driveFileId : Option String
  sourceFile : Option String
  name : Option String
  email : Option String
  phone : Option String
  linkedIn : Option String
  gitHub : Option String
  confidence : ℚ
  errors : List String
  deriving DecidableEq, Repr

/-- `ParsedCandidate::empty`. -/
def ParsedCandidate.empty (sourceFile driveFileId : Option String)
    (errors : List String) : ParsedCandidate :=
  { driveFileId := driveFileId
    sourceFile := sourceFile
    name := none
    email := none
    phone := none
    linkedIn := none
    gitHub := none
    confidence := 0
    errors := errors }

/-- `DriveFileRef`. -/
structure DriveFileRef where
  id : String
  name : String
  mimeType : String
  deriving DecidableEq, Repr

/-- `JobProcessingState`. -/
inductive JobProcessingState
  | pending
  | processing
  | completed
  | failed
  | revoked
  deriving DecidableEq, Repr

/-- `JobStatus` (`models.rs`), restricted to the fields some claim reads.
The `chrono` timestamp fields (`createdAt`, `startedAt`, `completedAt`,
`durationSeconds`) are carried by the source record but referenced by no
claim about the orchestrator, and are omitted from this embedding. -/
structure JobStatus where
  jobId : String
  status : JobProcessingState
  progress : Nat
  totalFiles : Nat
  processedFiles : Nat
  spreadsheetId : Option String
  resultsCount : Option Nat
  error : Option String
  deriving DecidableEq, Repr

/-- `BatchParseRequest`. -/
structure BatchParseRequest where
  folderId : String
  spreadsheetId : Option String
  deriving DecidableEq, Repr

/-! ## Per-file retry procedure — `service.rs` -/

/-- `is_retryable_error` (`service.rs`): a boxed `CoreError` answers
`CoreError::is_retryable`; a boxed `reqwest::Error` is retryable when it is
a timeout/connect failure or carries HTTP 429 or ≥ 500; anything else is
not retryable. -/
def isRetryableError : AnyErr → Bool
  | .core e => e.isRetryable
  | .reqwest isTimeout isConnect status _ =>
      if isTimeout || isConnect then true
      else
        match status with
        | some code => code == 429 || code ≥ 500
        | none => false
  | .other _ => false

/-- Output of one run of the per-file procedure: the produced record, how
many `process_single_file_once` attempts were made, and the sequence of
back-off sleeps (seconds) performed between attempts. -/
structure RetryOutcome where
  result : Option ParsedCandidate
  errors : List String
  attemptsUsed : Nat
  delays : List ℚ
  deriving DecidableEq, Repr

/-- The `for attempt in 0..max_retries` loop of
`process_single_file_with_retry`.  `outcome n` is the oracle for the n-th
`process_single_file_once` call (download + parse).  `remaining` is the
number of loop iterations left (`maxRetries - attempt`); the Rust guard
`attempt + 1 >= max_retries` is `remaining = 1` under that invariant.
The back-off slept before re-attempting after attempt `i` is
`max (retryDelaySeconds * 2 ^ i) 0.1` seconds. -/
def retryLoop (settings : RuntimeSettings)
    (outcome : Nat → Except AnyErr ParsedCandidate) :
    Nat → Nat → RetryOutcome
  | _, 0 => { result := none, errors := [], attemptsUsed := 0, delays := [] }
  | attempt, remaining + 1 =>
    match outcome attempt with
    | .ok candidate =>
        { result := some candidate, errors := [], attemptsUsed := 1, delays := [] }
    | .error err =>
        if isRetryableError err && remaining ≠ 0 then
          let rest := retryLoop settings outcome (attempt + 1) remaining
          { result := rest.result
            errors := rest.errors
            attemptsUsed := rest.attemptsUsed + 1
            delays :=
              max (settings.retryDelaySeconds * 2 ^ attempt) (1 / 10) :: rest.delays }
        else
          { result := none
            errors := ["Error processing file: " ++ err.toMessage]
            attemptsUsed := 1
            delays := [] }

/-- `process_single_file_with_retry`: an empty file id short-circuits to a
`Missing file ID` record with no attempt; otherwise the retry loop runs and
a `None` result is replaced by the failure record carrying the file's
identity and the collected error message. -/
def processSingleFileWithRetry (file : DriveFileRef) (settings : RuntimeSettings)
    (outcome : Nat → Except AnyErr ParsedCandidate) :
    ParsedCandidate × Nat × List ℚ :=
  if strTrim file.id = "" then
    (ParsedCandidate.empty (some file.name) none ["Missing file ID"], 0, [])
  else
    let loop := retryLoop settings outcome 0 settings.maxRetries
    let record :=
      match loop.result with
      | some candidate => candidate
      | none =>
          { driveFileId := some file.id
            sourceFile := some file.name
            name := none
            email := none
            phone := none
            linkedIn := none
            gitHub := none
            confidence := 0
            errors := loop.errors }
    (record, loop.attemptsUsed, loop.delays)

/-! ## Spreadsheet rows — `service.rs` -/

/-- `HEADER_COLUMNS`. -/
def headerColumns : List String :=
  ["Name", "Resume Link", "Phone Number", "Email ID", "LinkedIn", "GitHub"]

/-- The row built from one `ParsedCandidate` inside `run_batch_pipeline`:
name, Drive link derived from the file id, phone, email, LinkedIn, GitHub,
each blank when absent. -/
def candidateRow (c : ParsedCandidate) : List String :=
  [c.name.getD "",
   (match c.driveFileId with
    | some v => "https://drive.google.com/file/d/" ++ v ++ "/view"
    | none => ""),
   c.phone.getD "",
   c.email.getD "",
   c.linkedIn.getD "",
   c.gitHub.getD ""]

/-- The filter `row.iter().any(|cell| !cell.trim().is_empty())`. -/
def rowNonBlank (row : List String) : Bool :=
  row.any (fun cell => strTrim cell ≠ "")

/-! ## The batch pipeline — `service.rs`

The observable effects of one job run are recorded as an ordered trace. -/

/-- One observable side effect of the orchestrator: a `save_status` write,
a `save_results` write, an `append_rows` call that succeeded, or the
removal of the job's cancellation handle from the registry. -/
inductive Event
  | savedStatus (s : JobStatus)
  | savedResults (r : List ParsedCandidate)
  | appendedRows (rows : List (List String)) (skipHeader : Bool)
  | removedHandle
  deriving DecidableEq, Repr

/-- The environment one batch job runs against: results of the token
acquisition, the Drive listing, spreadsheet creation, the header append,
the per-batch appends (indexed by batch number), the per-file per-attempt
download/parse outcomes (indexed by global file position and attempt), and
the point in time at which an external `cancel` signal, if any, becomes
visible (`cancelFrom = some k`: every `is_cancelled()` read from the k-th
check on returns true — the token is monotone). -/
structure PipelineEnv where
  tokenResult : Except AnyErr String
  listResult : Except AnyErr (List DriveFileRef)
  createSheetResult : Except AnyErr String
  headerAppendResult : Except AnyErr Unit
  batchAppend : Nat → Except AnyErr Unit
  fileOutcome : Nat → Nat → Except AnyErr ParsedCandidate
  cancelFrom : Option Nat

/-- The value of the n-th `cancellation_token.is_cancelled()` read. -/
def cancelRead (cancelFrom : Option Nat) (n : Nat) : Bool :=
  match cancelFrom with
  | some k => decide (k ≤ n)
  | none => false

/-- Mutable state of the batch loop: accumulated results, the processed
counter, the number of cancellation checks performed, and the effect
trace so far. -/
structure LoopState where
  results : List ParsedCandidate
  processed : Nat
  checks : Nat
  trace : List Event
  deriving Repr

/-- `progress` as computed inside the loop and at the failure write:
`floor(processed * 100 / total)` capped at 99, and 0 when `total = 0`. -/
def progressOf (processed total : Nat) : Nat :=
  if total = 0 then 0 else min (processed * 100 / total) 99

/-- The results produced for one batch: each file at global position
`base + j` goes through the per-file retry procedure. -/
def batchResultsOf (env : PipelineEnv) (settings : RuntimeSettings)
    (base : Nat) (batch : List DriveFileRef) : List ParsedCandidate :=
  batch.enum.map fun p =>
    (processSingleFileWithRetry p.2 settings (env.fileOutcome (base + p.1))).1

/-- Tail of one loop iteration: extend results, set the new processed
counter, record the append events and the `Processing` status write. -/
def finishBatch (jobId : String) (sheetId : Option String) (total : Nat)
    (st : LoopState) (batchResults : List ParsedCandidate)
    (processedNew : Nat) (appendEvents : List Event) : LoopState :=
  { results := st.results ++ batchResults
    processed := processedNew
    checks := st.checks
    trace := st.trace ++ appendEvents ++
      [.savedStatus
        { jobId := jobId
          status := .processing
          progress := progressOf processedNew total
          totalFiles := total
          processedFiles := processedNew
          spreadsheetId := sheetId
          resultsCount := some (st.results ++ batchResults).length
          error := none }] }

/-- One iteration of the batch loop after the cancellation check: process
the batch, build the non-blank rows, append them when the sheet exists
(propagating an append failure), bump `processed_count` by the number of
appended rows, extend `results`, and write the `Processing` status. -/
def batchStep (env : PipelineEnv) (settings : RuntimeSettings) (jobId : String)
    (sheetId : Option String) (total base batchIdx : Nat)
    (batch : List DriveFileRef) (st : LoopState) : Except AnyErr LoopState :=
  let batchResults := batchResultsOf env settings base batch
  let rows := (batchResults.map candidateRow).filter rowNonBlank
  if rows.isEmpty then
    .ok (finishBatch jobId sheetId total st batchResults st.processed [])
  else
    match sheetId with
    | some _ =>
        match env.batchAppend batchIdx with
        | .error e => .error e
        | .ok _ =>
            .ok (finishBatch jobId sheetId total st batchResults
              (st.processed + rows.length) [.appendedRows rows true])
    | none =>
        .ok (finishBatch jobId sheetId total st batchResults
          (st.processed + rows.length) [])

/-- The `for batch in drive_files.chunks(chunk_size)` loop of
`run_batch_pipeline`.  Structurally recursive on `fuel`; every call site
uses `fuel = files.length`, which suffices because each iteration consumes
`max spreadsheetBatchSize 1 ≥ 1` files.  Returns the abort error, if any,
together with the final loop state. -/
def runBatches (env : PipelineEnv) (settings : RuntimeSettings) (jobId : String)
    (sheetId : Option String) (total : Nat) :
    Nat → List DriveFileRef → Nat → Nat → LoopState → Option AnyErr × LoopState
  | _, [], _, _, st => (none, st)
  | 0, _ :: _, _, _, st => (none, st)
  | fuel + 1, f :: rest, base, batchIdx, st =>
    if cancelRead env.cancelFrom batchIdx then
      (some (.other "job canceled"), { st with checks := st.checks + 1 })
    else
      let st1 : LoopState := { st with checks := st.checks + 1 }
      let chunk := max settings.spreadsheetBatchSize 1
      match batchStep env settings jobId sheetId total base batchIdx
          ((f :: rest).take chunk) st1 with
      | .error e => (some e, st1)
      | .ok st2 =>
          runBatches env settings jobId sheetId total fuel ((f :: rest).drop chunk)
            (base + ((f :: rest).take chunk).length) (batchIdx + 1) st2

/-- Everything `run_batch_pipeline` leaves behind: the abort error if any,
the final values of the `spreadsheet_id`/`results`/`processed_count`/
`total_files` variables the caller passed by reference, the number of
cancellation reads performed, and the effect trace. -/
structure PipeResult where
  err : Option AnyErr
  sheetId : Option String
  results : List ParsedCandidate
  processed : Nat
  totalFiles : Nat
  checks : Nat
  trace : List Event
  deriving Repr

/-- Steps 3 of the pipeline: when no destination spreadsheet id was
supplied (or it is empty), create one and append the fixed header row
before any data row; otherwise keep the supplied id.  Returns the sheet id
the loop will use plus the header-append event. -/
def ensureSheet (env : PipelineEnv) (reqSheet : Option String) :
    Except AnyErr (Option String × List Event) :=
  if (reqSheet.getD "") = "" then
    match env.createSheetResult with
    | .error e => .error e
    | .ok created =>
        match env.headerAppendResult with
        | .error e => .error e
        | .ok _ => .ok (some created, [.appendedRows [headerColumns] false])
  else .ok (reqSheet, [])

/-- The loop state at the start of the batch loop: empty results, zero
counters, and the trace of the three pre-loop writes (the initial
`Processing` status, the header-append events, and the post-enumeration
`Processing` status reporting `totalFiles`). -/
def pipeStartState (req : BatchParseRequest) (jobId : String)
    (sheet : Option String) (sheetEvents : List Event) (total : Nat) : LoopState :=
  { results := [], processed := 0, checks := 0
    trace := [.savedStatus
      { jobId := jobId, status := .processing, progress := 0, totalFiles := 0
        processedFiles := 0, spreadsheetId := req.spreadsheetId
        resultsCount := none, error := none }] ++ sheetEvents ++
      [.savedStatus
        { jobId := jobId, status := .processing, progress := 0
          totalFiles := total, processedFiles := 0
          spreadsheetId := sheet, resultsCount := none, error := none }] }

/-- `CoreService::run_batch_pipeline`.  Job-store writes are modelled as
infallible (local JSON writes; no claim concerns their failure). -/
def runBatchPipeline (env : PipelineEnv) (settings : RuntimeSettings)
    (req : BatchParseRequest) (jobId : String) : PipeResult :=
  let startStatus : JobStatus :=
    { jobId := jobId, status := .processing, progress := 0, totalFiles := 0
      processedFiles := 0, spreadsheetId := req.spreadsheetId
      resultsCount := none, error := none }
  let trace0 : List Event := [.savedStatus startStatus]
  match env.tokenResult with
  | .error e =>
      { err := some e, sheetId := req.spreadsheetId, results := [], processed := 0
        totalFiles := 0, checks := 0, trace := trace0 }
  | .ok _ =>
  match env.listResult with
  | .error e =>
      { err := some e, sheetId := req.spreadsheetId, results := [], processed := 0
        totalFiles := 0, checks := 0, trace := trace0 }
  | .ok files =>
  if files.isEmpty then
    { err := none, sheetId := req.spreadsheetId, results := [], processed := 0
      totalFiles := 0, checks := 0, trace := trace0 ++ [.savedResults []] }
  else
    let total := files.length
    match ensureSheet env req.spreadsheetId with
    | .error e =>
        { err := some e, sheetId := req.spreadsheetId, results := [], processed := 0
          totalFiles := total, checks := 0, trace := trace0 }
    | .ok (sheet, sheetEvents) =>
        let run := runBatches env settings jobId sheet total files.length files 0 0
          (pipeStartState req jobId sheet sheetEvents total)
        { err := run.1, sheetId := sheet, results := run.2.results
          processed := run.2.processed, totalFiles := total
          checks := run.2.checks, trace := run.2.trace }

/-! ## Cancellation registry — `service.rs` -/

/-- The `cancellation_tokens` map, as an association list keyed by job id;
the Bool is the token's signalled flag. -/
def lookupKey (reg : List (String × Bool)) (k : String) : Option Bool :=
  (reg.find? fun kv => kv.1 == k).map fun kv => kv.2

def removeKey (reg : List (String × Bool)) (k : String) : List (String × Bool) :=
  reg.filter fun kv => kv.1 != k

def insertKey (reg : List (String × Bool)) (k : String) (v : Bool) :
    List (String × Bool) :=
  (k, v) :: removeKey reg k

/-- `CoreService::cancel_job`: look up the handle; if present, signal it
and report true; otherwise report false and leave everything unchanged.
The entry is never removed. -/
def cancelJob (reg : List (String × Bool)) (jobId : String) :
    Bool × List (String × Bool) :=
  match lookupKey reg jobId with
  | some _ => (true, insertKey reg jobId true)
  | none => (false, reg)

/-! ## `process_batch_job` — `service.rs` -/

/-- What one `process_batch_job` run leaves behind: the terminal status
written, the results array persisted by the terminal phase (if any), the
full effect trace, and the registry after the run (the handle inserted at
start is removed right after pipeline exit). -/
structure JobOutcome where
  finalStatus : JobStatus
  savedResultsFinal : Option (List ParsedCandidate)
  trace : List Event
  registryAfter : List (String × Bool)
  deriving Repr

/-- `CoreService::process_batch_job`. -/
def processBatchJob (env : PipelineEnv) (settings : RuntimeSettings)
    (req : BatchParseRequest) (jobId : String)
    (reg0 : List (String × Bool)) : JobOutcome :=
  let pipe := runBatchPipeline env settings req jobId
  let regAfter := removeKey (insertKey reg0 jobId false) jobId
  match pipe.err with
  | none =>
      let status : JobStatus :=
        { jobId := jobId, status := .completed, progress := 100
          totalFiles := pipe.totalFiles, processedFiles := pipe.processed
          spreadsheetId := pipe.sheetId
          resultsCount := some pipe.results.length, error := none }
      { finalStatus := status
        savedResultsFinal := some pipe.results
        trace := pipe.trace ++ [.removedHandle, .savedResults pipe.results,
          .savedStatus status]
        registryAfter := regAfter }
  | some e =>
      let wasCancelled := cancelRead env.cancelFrom pipe.checks
      let status : JobStatus :=
        { jobId := jobId
          status := if wasCancelled then .revoked else .failed
          progress := progressOf pipe.processed pipe.totalFiles
          totalFiles := pipe.totalFiles, processedFiles := pipe.processed
          spreadsheetId := pipe.sheetId
          resultsCount := some pipe.results.length
          error := some e.toMessage }
      { finalStatus := status
        savedResultsFinal := none
        trace := pipe.trace ++ [.removedHandle, .savedStatus status]
        registryAfter := regAfter }

/-- Does the event record the write of a terminal status
(`Completed`/`Failed`/`Revoked`)? -/
def isTerminalSave : Event → Bool
  | .savedStatus s =>
      match s.status with
      | .completed => true
      | .failed => true
      | .revoked => true
      | _ => false
  | _ => false

/-- Does the event record a `save_results` write? -/
def isSavedResults : Event → Bool
  | .savedResults _ => true
  | _ => false

/-- Total number of data rows (`skipHeaderRow = true` appends) recorded in
a trace; header appends are not counted. -/
def appendedRowCount : List Event → Nat
  | [] => 0
  | .appendedRows rows true :: rest => rows.length + appendedRowCount rest
  | _ :: rest => appendedRowCount rest

/-! ## `start_batch_job` — `service.rs` -/

/-- What `start_batch_job` did: its return value, the `Pending` status it
persisted (if any), and the work item it enqueued (if any).  The retention
sweep the code runs between the auth check and the id generation persists
no job record and is not represented. -/
structure StartOutcome where
  result : Except AnyErr String
  savedPending : Option JobStatus
  enqueued : Option (String × BatchParseRequest)
  deriving Repr

/-- The error mapping `start_batch_job` applies to the token-acquisition
failure: `SignInRequired`/`ReauthRequired` auth errors are rewrapped with a
batch-specific message, everything else passes through. -/
def mapStartAuthError (err : AnyErr) : AnyErr :=
  match err with
  | .core (.auth code _) =>
      if code = .signInRequired ∨ code = .reauthRequired then
        .core (.auth code "Google authentication required before starting a batch job.")
      else err
  | _ => err

/-- `CoreService::start_batch_job`, as a function of the request, the
outcome of `get_access_token_non_interactive`, and the id the `Uuid`
generator would produce. -/
def startBatchJob (req : BatchParseRequest) (authResult : Except AnyErr String)
    (newJobId : String) : StartOutcome :=
  if strTrim req.folderId = "" then
    { result := .error (.core (.invalidRequest "FolderId is required"))
      savedPending := none, enqueued := none }
  else
    match authResult with
    | .error err =>
        { result := .error (mapStartAuthError err)
          savedPending := none, enqueued := none }
    | .ok _ =>
        let pending : JobStatus :=
          { jobId := newJobId, status := .pending, progress := 0, totalFiles := 0
            processedFiles := 0, spreadsheetId := req.spreadsheetId
            resultsCount := none, error := none }
        { result := .ok newJobId
          savedPending := some pending
          enqueued := some (newJobId, req) }

/-! ## Job store listing and retention — `job_store.rs` -/

/-- The timestamps `cleanup_expired_jobs` reads out of a job directory's
`status.json`; a directory whose status file is missing or unparsable is
modelled by `none` at the map level. -/
structure JobRecord where
  createdAt : Option Int
  completedAt : Option Int
  deriving DecidableEq, Repr

/-- `status.completed_at.or(status.created_at).unwrap_or(now)`, and `now`
for a missing/unreadable status file. -/
def jobReferenceTime (now : Int) : Option JobRecord → Int
  | some record => ((record.completedAt).orElse fun _ => record.createdAt).getD now
  | none => now

/-- `JsonJobStore::cleanup_expired_jobs` over a directory listing: delete
every job directory strictly older than `retentionHours` (blank names are
skipped and survive).  `retentionHours` is in hours, times in seconds. -/
def cleanupExpiredJobs (retentionHours now : Int)
    (jobs : List (String × Option JobRecord)) : List (String × Option JobRecord) :=
  jobs.filter fun entry =>
    strTrim entry.1 = "" ||
      ¬ (now - jobReferenceTime now entry.2 > max retentionHours 1 * 3600)

/-- Lexicographic ≤ on character lists by code point, modelling Rust's
`str::cmp` (UTF-8 byte order coincides with code-point order). -/
def listCharLe : List Char → List Char → Bool
  | [], _ => true
  | _ :: _, [] => false
  | a :: as, b :: bs =>
      if a.toNat = b.toNat then listCharLe as bs
      else decide (a.toNat < b.toNat)

/-- Rust `a <= b` on strings. -/
def strLe (a b : String) : Prop :=
  listCharLe a.toList b.toList = true

instance : DecidableRel strLe := fun a b => by
  unfold strLe
  infer_instance

/-- Descending string sort, `ids.sort_by(|a, b| b.cmp(a))`. -/
def sortIdsDescending (ids : List String) : List String :=
  ids.insertionSort fun a b => strLe b a

/-- `JsonJobStore::list_jobs`: sweep first, then the surviving non-blank
directory names in descending lexicographic order. -/
def listJobs (retentionHours now : Int)
    (jobs : List (String × Option JobRecord)) : List String :=
  let survivors := cleanupExpiredJobs retentionHours now jobs
  sortIdsDescending ((survivors.map fun entry => entry.1).filter
    fun id => strTrim id ≠ "")

/-- The creation instant of a job directory as far as a "newest first"
ordering could read it (`createdAt`, else the sweep's `now`). -/
def jobCreatedTime (now : Int) : Option JobRecord → Int
  | some record => record.createdAt.getD now
  | none => now

/-- Modelled from the spec: "list job ids (newest first, after retention
sweep)" — the surviving non-blank ids ordered by creation time, most
recently created first.  Refinement target to compare `listJobs` against;
not part of the source embedding. -/
def listJobsNewestFirstSpec (retentionHours now : Int)
    (jobs : List (String × Option JobRecord)) : List String :=
  let survivors := (cleanupExpiredJobs retentionHours now jobs).filter
    fun entry => strTrim entry.1 ≠ ""
  (survivors.insertionSort fun x y =>
    jobCreatedTime now y.2 ≤ jobCreatedTime now x.2).map fun entry => entry.1

/-! ## Manual sign-in completion — `auth.rs` -/

/-- `ManualAuthSession` (`auth.rs`); `expiresAt` in seconds. -/
structure ManualAuthSession where
  sessionId : String
  state : String
  codeVerifier : String
  redirectUri : String
  authorizeUrl : String
  expiresAt : Int
  deriving DecidableEq, Repr

/-- `ManualAuthCompleteRequest` (`models.rs`). -/
structure ManualAuthCompleteRequest where
  sessionId : String
  callbackUrlOrCode : String
  deriving DecidableEq, Repr

/-- `AuthStatus` (`models.rs`). -/
structure AuthStatus where
  signedIn : Bool
  email : Option String
  expiresAt : Option Int
  deriving DecidableEq, Repr

/-- Association-list lookup for the in-memory session map. -/
def sessionLookup (sessions : List (String × ManualAuthSession)) (k : String) :
    Option ManualAuthSession :=
  (sessions.find? fun kv => kv.1 == k).map fun kv => kv.2

/-- `HashMap::remove` on the session map. -/
def sessionRemove (sessions : List (String × ManualAuthSession)) (k : String) :
    List (String × ManualAuthSession) :=
  sessions.filter fun kv => kv.1 != k

/-- `GoogleAuthService::complete_manual_sign_in`, as a function of the
session map, the wall clock, the request, the `url`-crate oracle, the
token-exchange outcome and the keyring-save outcome.  Returns the call's
result together with the session map afterwards.  Note the `?` early
returns: the session is removed from the map only on the expired path and
after a fully successful exchange-and-persist. -/
def completeManualSignIn (settings : RuntimeSettings)
    (sessions : List (String × ManualAuthSession)) (now : Int)
    (req : ManualAuthCompleteRequest)
    (parseUrl : String → Option (List (String × String)))
    (exchangeResult : Except AnyErr TokenEnvelope)
    (saveResult : Except AnyErr Unit) :
    Except AnyErr AuthStatus × List (String × ManualAuthSession) :=
  match validateSettings settings with
  | .error e => (.error e, sessions)
  | .ok _ =>
  match sessionLookup sessions req.sessionId with
  | none =>
      (.error (.core (.auth .sessionNotFound
        "Manual sign-in session not found. Start manual sign-in again.")), sessions)
  | some session =>
      if session.expiresAt ≤ now then
        (.error (.core (.auth .challengeExpired
          "Manual sign-in session expired. Start manual sign-in again.")),
         sessionRemove sessions req.sessionId)
      else
        match parseCallbackUrlOrCode parseUrl req.callbackUrlOrCode session.state with
        | .error e => (.error (.core e), sessions)
        | .ok _code =>
            match exchangeResult with
            | .error e => (.error e, sessions)
            | .ok token =>
                match saveResult with
                | .error e => (.error e, sessions)
                | .ok _ =>
                    (.ok { signedIn := true, email := token.email
                           expiresAt := some token.expiresAtUtc },
                     sessionRemove sessions req.sessionId)

/-! # Claims -/

/-- C10: for every non-empty trimmed input to the callback parser that does
not start with `http://` or `https://`, the input is accepted verbatim
(after trimming) as the authorization code — no state comparison and no
error-parameter check happens on the raw-code path (the result does not
depend on `expectedState` nor on any query parameter). -/
theorem raw_code_accepted_verbatim
    (parseUrl : String → Option (List (String × String)))
    (input expectedState : String)
    (hne : strTrim input ≠ "")
    (hh1 : strStartsWith (strTrim input) "http://" = false)
    (hh2 : strStartsWith (strTrim input) "https://" = false) :
    parseCallbackUrlOrCode parseUrl input expectedState = .ok (strTrim input) := by
  unfold parseCallbackUrlOrCode
  simp [hne, hh1, hh2]

/-- Witness for C10 at a concrete raw code. -/
theorem raw_code_accepted_verbatim_witness :
    parseCallbackUrlOrCode (fun _ => none) "raw-code-123" "some-state" =
      .ok "raw-code-123" :=
  raw_code_accepted_verbatim (fun _ => none) "raw-code-123" "some-state"
    (by decide) (by decide) (by decide)

/-- C9: `start_batch_job` acquires the non-interactive token before
creating any job record — when acquisition fails (on a request with a
non-blank folder id, the only case that reaches the token step) the call
returns the mapped auth error, persists no `Pending` status, and enqueues
nothing. -/
theorem start_batch_job_stops_on_auth_failure
    (req : BatchParseRequest) (e : AnyErr) (newJobId : String)
    (hfolder : strTrim req.folderId ≠ "") :
    startBatchJob req (.error e) newJobId =
      { result := .error (mapStartAuthError e)
        savedPending := none
        enqueued := none } := by
  unfold startBatchJob
  simp [hfolder]

/-- Witness for C9: a sign-in-required failure on a well-formed request. -/
theorem start_batch_job_stops_on_auth_failure_witness :
    startBatchJob { folderId := "folder-1", spreadsheetId := none }
        (.error (.core (.auth .signInRequired "Google sign-in required.")))
        "job-1" =
      { result := .error (.core (.auth .signInRequired
          "Google authentication required before starting a batch job."))
        savedPending := none
        enqueued := none } := by
  have h := start_batch_job_stops_on_auth_failure
    { folderId := "folder-1", spreadsheetId := none }
    (.core (.auth .signInRequired "Google sign-in required.")) "job-1" (by decide)
  simpa [mapStartAuthError] using h

/-! ### C3 — re-auth classification of refresh failures -/

/-- Flattened characterization of `isReauthResponse`: HTTP 400/401 and
either a raw-body `invalid_grant`/`invalid_token` marker or a hit in the
parsed JSON fields — in which case an `error_description` merely
containing `token` suffices. -/
theorem isReauthResponse_iff (status : Nat) (body : HttpBody) :
    isReauthResponse status body = true ↔
      ((status = 400 ∨ status = 401) ∧
        (strContains (toLowerStr body.raw) "invalid_grant" = true ∨
         strContains (toLowerStr body.raw) "invalid_token" = true ∨
         ∃ p, body.parsedError = some p ∧
           (strContains (toLowerStr (p.error.getD "")) "invalid_grant" = true ∨
            strContains (toLowerStr (p.error.getD "")) "invalid_token" = true ∨
            strContains (toLowerStr (p.errorDescription.getD "")) "invalid_grant" = true ∨
            strContains (toLowerStr (p.errorDescription.getD "")) "token" = true))) := by
  unfold isReauthResponse
  by_cases h400 : status = 400
  · subst h400
    rcases hp : body.parsedError with _ | p <;> simp [hp] <;> try tauto
  · by_cases h401 : status = 401
    · subst h401
      rcases hp : body.parsedError with _ | p <;> simp [hp, h400] <;> try tauto
    · simp [h400, h401]

/-- C3 counterexample: at HTTP 400 with body
`{"error":"server_error","error_description":"token service unavailable"}`
the code classifies the failure as re-auth required (the parsed
`error_description` contains `token`), although the body carries neither
an `invalid_grant` nor an `invalid_token` marker — refuting the claimed
"if and only if". -/
theorem reauth_classification_counterexample :
    isReauthResponse 400
      { raw := "\x7b\"error\":\"server_error\",\"error_description\":\"token service unavailable\"\x7d"
        parsedError := some { error := some "server_error"
                              errorDescription := some "token service unavailable" } } = true ∧
    strContains
      (toLowerStr "\x7b\"error\":\"server_error\",\"error_description\":\"token service unavailable\"\x7d")
      "invalid_grant" = false ∧
    strContains
      (toLowerStr "\x7b\"error\":\"server_error\",\"error_description\":\"token service unavailable\"\x7d")
      "invalid_token" = false := by
  refine ⟨?_, ?_, ?_⟩ <;> decide

/-- C3 (amended): a failed refresh response is classified re-auth-required
iff its HTTP status is 400/401 and the body carries an
`invalid_grant`/`invalid_token` marker — or parses as an OAuth error JSON
one of whose fields carries such a marker, where an `error_description`
merely containing `token` also suffices.  On a so-classified failure
`get_access_token_non_interactive` clears the stored token and fails
re-auth-required, and a subsequent call (empty store) fails
sign-in-required; any other failed refresh is surfaced unchanged as a
provider error and leaves the stored token in place. -/
theorem refresh_failure_reauth_behaviour
    (settings : RuntimeSettings) (tok : TokenEnvelope) (rt : String)
    (now now2 : Int) (resp resp2 : TokenHttpResponse)
    (emailFetch emailFetch2 : Option String)
    (hclient : strTrim settings.googleClientId ≠ "")
    (hexp : tok.expiresAtUtc ≤ now + 300)
    (hrt : tok.refreshToken = some rt)
    (hfail : statusIsSuccess resp.status = false) :
    (∀ status body, isReauthResponse status body = true ↔
      ((status = 400 ∨ status = 401) ∧
        (strContains (toLowerStr body.raw) "invalid_grant" = true ∨
         strContains (toLowerStr body.raw) "invalid_token" = true ∨
         ∃ p, body.parsedError = some p ∧
           (strContains (toLowerStr (p.error.getD "")) "invalid_grant" = true ∨
            strContains (toLowerStr (p.error.getD "")) "invalid_token" = true ∨
            strContains (toLowerStr (p.errorDescription.getD "")) "invalid_grant" = true ∨
            strContains (toLowerStr (p.errorDescription.getD "")) "token" = true)))) ∧
    (isReauthResponse resp.status resp.body = true →
      getAccessTokenNonInteractive settings (some tok) now resp emailFetch =
        (.error (.core (.auth .reauthRequired
          "Google session expired or revoked. Sign in again.")), none) ∧
      getAccessTokenNonInteractive settings none now2 resp2 emailFetch2 =
        (.error (.core (.auth .signInRequired "Google sign-in required.")), none)) ∧
    (isReauthResponse resp.status resp.body = false →
      getAccessTokenNonInteractive settings (some tok) now resp emailFetch =
        (.error (.core (.auth .providerError
          ("Google token refresh failed with status " ++ toString resp.status ++ "."))),
         some tok)) := by
  refine ⟨isReauthResponse_iff, ?_, ?_⟩
  · intro hclass
    constructor
    · unfold getAccessTokenNonInteractive validateSettings refreshTokenModel
      simp [hclient, TokenEnvelope.isExpiringWithin, hexp, hrt, hfail, hclass,
        isReauthError]
    · unfold getAccessTokenNonInteractive validateSettings
      simp [hclient]
  · intro hclass
    unfold getAccessTokenNonInteractive validateSettings refreshTokenModel
    simp [hclient, TokenEnvelope.isExpiringWithin, hexp, hrt, hfail, hclass,
      isReauthError]

/-- Witness for C3 (amended) at the canonical `invalid_grant` response. -/
theorem refresh_failure_reauth_behaviour_witness :
    getAccessTokenNonInteractive
        { googleClientId := "client-1", googleClientSecret := none
          tesseractPath := "tesseract", maxConcurrentRequests := 5
          spreadsheetBatchSize := 10, maxRetries := 3
          retryDelaySeconds := 1, jobRetentionHours := 24 }
        (some { accessToken := "at", refreshToken := some "rt"
                expiresAtUtc := 0, email := none })
        0
        { status := 400
          body := { raw := "\x7b\"error\":\"invalid_grant\"\x7d"
                    parsedError := some { error := some "invalid_grant"
                                          errorDescription := none } }
          payload := none }
        none =
      (.error (.core (.auth .reauthRequired
        "Google session expired or revoked. Sign in again.")), none) :=
  ((refresh_failure_reauth_behaviour
      { googleClientId := "client-1", googleClientSecret := none
        tesseractPath := "tesseract", maxConcurrentRequests := 5
        spreadsheetBatchSize := 10, maxRetries := 3
        retryDelaySeconds := 1, jobRetentionHours := 24 }
      { accessToken := "at", refreshToken := some "rt"
        expiresAtUtc := 0, email := none }
      "rt" 0 0
      { status := 400
        body := { raw := "\x7b\"error\":\"invalid_grant\"\x7d"
                  parsedError := some { error := some "invalid_grant"
                                        errorDescription := none } }
        payload := none }
      { status := 400
        body := { raw := "\x7b\"error\":\"invalid_grant\"\x7d"
                  parsedError := some { error := some "invalid_grant"
                                        errorDescription := none } }
        payload := none }
      none none (by decide) (by decide) rfl (by decide)).2.1 (by decide)).1

/-! ### C2 — manual session lifecycle on completion -/

/-- C2 counterexample: with a live, unexpired session `s1`, a completion
attempt whose callback input fails to parse (empty input) leaves the
session in the map, and a second attempt with the same session id fails
with the same invalid-callback error — not with session-not-found.  This
refutes the claim that the session is deleted after the attempt regardless
of outcome. -/
theorem manual_session_survives_failed_completion :
    (completeManualSignIn
        { googleClientId := "client-1", googleClientSecret := none
          tesseractPath := "tesseract", maxConcurrentRequests := 5
          spreadsheetBatchSize := 10, maxRetries := 3
          retryDelaySeconds := 1, jobRetentionHours := 24 }
        [("s1", { sessionId := "s1", state := "st", codeVerifier := "cv"
                  redirectUri := "ru", authorizeUrl := "au", expiresAt := 600 })]
        0 { sessionId := "s1", callbackUrlOrCode := "" }
        (fun _ => none) (.error (.other "exchange not reached")) (.ok ())).2 =
      [("s1", { sessionId := "s1", state := "st", codeVerifier := "cv"
                redirectUri := "ru", authorizeUrl := "au", expiresAt := 600 })] ∧
    (completeManualSignIn
        { googleClientId := "client-1", googleClientSecret := none
          tesseractPath := "tesseract", maxConcurrentRequests := 5
          spreadsheetBatchSize := 10, maxRetries := 3
          retryDelaySeconds := 1, jobRetentionHours := 24 }
        [("s1", { sessionId := "s1", state := "st", codeVerifier := "cv"
                  redirectUri := "ru", authorizeUrl := "au", expiresAt := 600 })]
        0 { sessionId := "s1", callbackUrlOrCode := "" }
        (fun _ => none) (.error (.other "exchange not reached")) (.ok ())).1 =
      .error (.core (.auth .invalidCallback
        "Callback URL or authorization code is required.")) :=
  ⟨rfl, rfl⟩

/-- C2 (amended): `complete_manual_sign_in` removes the session when it is
found expired and after a fully successful exchange-and-persist; on a
callback-parse failure, a code-exchange failure or a token-persist failure
the `?` early return leaves the session map unchanged, so the session
stays reusable. -/
theorem complete_manual_sign_in_session_lifecycle
    (settings : RuntimeSettings) (sessions : List (String × ManualAuthSession))
    (now : Int) (req : ManualAuthCompleteRequest)
    (parseUrl : String → Option (List (String × String)))
    (exchangeResult : Except AnyErr TokenEnvelope)
    (saveResult : Except AnyErr Unit) (session : ManualAuthSession)
    (hclient : strTrim settings.googleClientId ≠ "")
    (hfound : sessionLookup sessions req.sessionId = some session) :
    (session.expiresAt ≤ now →
      completeManualSignIn settings sessions now req parseUrl exchangeResult saveResult =
        (.error (.core (.auth .challengeExpired
          "Manual sign-in session expired. Start manual sign-in again.")),
         sessionRemove sessions req.sessionId)) ∧
    (¬ session.expiresAt ≤ now →
      (∀ e, parseCallbackUrlOrCode parseUrl req.callbackUrlOrCode session.state = .error e →
        completeManualSignIn settings sessions now req parseUrl exchangeResult saveResult =
          (.error (.core e), sessions)) ∧
      (∀ c, parseCallbackUrlOrCode parseUrl req.callbackUrlOrCode session.state = .ok c →
        (∀ e, exchangeResult = .error e →
          completeManualSignIn settings sessions now req parseUrl exchangeResult saveResult =
            (.error e, sessions)) ∧
        (∀ token, exchangeResult = .ok token →
          (∀ e, saveResult = .error e →
            completeManualSignIn settings sessions now req parseUrl exchangeResult saveResult =
              (.error e, sessions)) ∧
          (saveResult = .ok () →
            completeManualSignIn settings sessions now req parseUrl exchangeResult saveResult =
              (.ok { signedIn := true, email := token.email
                     expiresAt := some token.expiresAtUtc },
               sessionRemove sessions req.sessionId))))) := by
  unfold completeManualSignIn validateSettings
  simp only [hclient, if_neg, hfound]
  constructor
  · intro hx
    simp [hx]
  · intro hx
    rw [if_neg hx]
    constructor
    · intro e hpe
      rw [hpe]
      simp
    · intro c hpc
      rw [hpc]
      refine ⟨fun e hee => by rw [hee]; simp, fun token het => ?_⟩
      rw [het]
      refine ⟨fun e hse => by rw [hse]; simp, fun hs => by rw [hs]; simp⟩

/-- Witness for C2 (amended): the fully successful path removes the
session. -/
theorem complete_manual_sign_in_session_lifecycle_witness :
    completeManualSignIn
        { googleClientId := "client-1", googleClientSecret := none
          tesseractPath := "tesseract", maxConcurrentRequests := 5
          spreadsheetBatchSize := 10, maxRetries := 3
          retryDelaySeconds := 1, jobRetentionHours := 24 }
        [("s1", { sessionId := "s1", state := "st", codeVerifier := "cv"
                  redirectUri := "ru", authorizeUrl := "au", expiresAt := 600 })]
        0 { sessionId := "s1", callbackUrlOrCode := "auth-code-1" }
        (fun _ => none)
        (.ok { accessToken := "at", refreshToken := some "rt"
               expiresAtUtc := 3600, email := none })
        (.ok ()) =
      (.ok { signedIn := true, email := none, expiresAt := some 3600 }, []) :=
  ((((complete_manual_sign_in_session_lifecycle
      { googleClientId := "client-1", googleClientSecret := none
        tesseractPath := "tesseract", maxConcurrentRequests := 5
        spreadsheetBatchSize := 10, maxRetries := 3
        retryDelaySeconds := 1, jobRetentionHours := 24 }
      [("s1", { sessionId := "s1", state := "st", codeVerifier := "cv"
                redirectUri := "ru", authorizeUrl := "au", expiresAt := 600 })]
      0 { sessionId := "s1", callbackUrlOrCode := "auth-code-1" }
      (fun _ => none)
      (.ok { accessToken := "at", refreshToken := some "rt"
             expiresAtUtc := 3600, email := none })
      (.ok ())
      { sessionId := "s1", state := "st", codeVerifier := "cv"
        redirectUri := "ru", authorizeUrl := "au", expiresAt := 600 }
      (by decide) rfl).2 (by decide)).2 "auth-code-1" rfl).2
      { accessToken := "at", refreshToken := some "rt"
        expiresAtUtc := 3600, email := none } rfl).2 rfl

/-! ### C5 — job listing order -/

theorem listCharLe_total : ∀ as bs : List Char,
    listCharLe as bs = true ∨ listCharLe bs as = true := by
  intro as
  induction as with
  | nil => intro bs; left; rfl
  | cons a as ih =>
    intro bs
    cases bs with
    | nil => right; rfl
    | cons b bs =>
      by_cases h : a.toNat = b.toNat
      · rcases ih bs with h1 | h1
        · left; simp only [listCharLe]; rw [if_pos h]; exact h1
        · right; simp only [listCharLe]; rw [if_pos h.symm]; exact h1
      · rcases Nat.lt_or_ge a.toNat b.toNat with hlt | hge
        · left; simp only [listCharLe]; rw [if_neg h]; exact decide_eq_true hlt
        · have hgt : b.toNat < a.toNat :=
            lt_of_le_of_ne hge fun e => h e.symm
          right; simp only [listCharLe]
          rw [if_neg fun e => h e.symm]
          exact decide_eq_true hgt

theorem listCharLe_trans : ∀ as bs cs : List Char,
    listCharLe as bs = true → listCharLe bs cs = true →
    listCharLe as cs = true := by
  intro as
  induction as with
  | nil => intro bs cs _ _; rfl
  | cons a as ih =>
    intro bs cs h1 h2
    cases bs with
    | nil => simp [listCharLe] at h1
    | cons b bs =>
      cases cs with
      | nil => simp [listCharLe] at h2
      | cons c cs =>
        simp only [listCharLe] at h1 h2 ⊢
        by_cases hab : a.toNat = b.toNat
        · rw [if_pos hab] at h1
          by_cases hbc : b.toNat = c.toNat
          · rw [if_pos hbc] at h2
            rw [if_pos (hab.trans hbc)]
            exact ih bs cs h1 h2
          · rw [if_neg hbc] at h2
            have hlt : b.toNat < c.toNat := of_decide_eq_true h2
            have hac : a.toNat < c.toNat := hab ▸ hlt
            rw [if_neg (Nat.ne_of_lt hac)]
            exact decide_eq_true hac
        · rw [if_neg hab] at h1
          have hlt1 : a.toNat < b.toNat := of_decide_eq_true h1
          by_cases hbc : b.toNat = c.toNat
          · have hac : a.toNat < c.toNat := hbc ▸ hlt1
            rw [if_neg (Nat.ne_of_lt hac)]
            exact decide_eq_true hac
          · rw [if_neg hbc] at h2
            have hlt2 : b.toNat < c.toNat := of_decide_eq_true h2
            have hac : a.toNat < c.toNat := Nat.lt_trans hlt1 hlt2
            rw [if_neg (Nat.ne_of_lt hac)]
            exact decide_eq_true hac

/-- C5 counterexample: two surviving jobs whose ids sort in the opposite
order to their creation times.  `list_jobs` returns descending
lexicographic id order (`b.cmp(a)`), not newest-first: job `"a"` was
created later (t = 1000) than job `"b"` (t = 10), yet `"b"` is listed
first. -/
theorem list_jobs_not_newest_first :
    listJobs 24 2000
      [("a", some { createdAt := some 1000, completedAt := none }),
       ("b", some { createdAt := some 10, completedAt := none })] = ["b", "a"] ∧
    listJobsNewestFirstSpec 24 2000
      [("a", some { createdAt := some 1000, completedAt := none }),
       ("b", some { createdAt := some 10, completedAt := none })] = ["a", "b"] ∧
    (["b", "a"] : List String) ≠ ["a", "b"] := by
  refine ⟨?_, ?_, ?_⟩ <;> decide

/-- C5 (amended): every `list_jobs` call first performs the retention
sweep and returns exactly the surviving non-blank job ids, ordered in
descending lexicographic (byte) order of the id — which is creation order
only by accident, never by construction. -/
theorem list_jobs_sweeps_then_sorts_descending (retentionHours now : Int)
    (jobs : List (String × Option JobRecord)) :
    (∀ id, id ∈ listJobs retentionHours now jobs ↔
      id ∈ ((cleanupExpiredJobs retentionHours now jobs).map fun entry => entry.1).filter
        (fun id => strTrim id ≠ "")) ∧
    List.Sorted (fun a b => strLe b a) (listJobs retentionHours now jobs) := by
  haveI htot : IsTotal String fun a b => strLe b a :=
    ⟨fun a b => listCharLe_total b.toList a.toList⟩
  haveI htrans : IsTrans String fun a b => strLe b a :=
    ⟨fun a b c h1 h2 => listCharLe_trans c.toList b.toList a.toList h2 h1⟩
  constructor
  · intro id
    unfold listJobs sortIdsDescending
    exact List.mem_insertionSort _
  · unfold listJobs sortIdsDescending
    exact List.sorted_insertionSort _ _

/-! ### C6 — per-file retry procedure -/

/-- Full characterization of the retry loop, by induction on the remaining
attempt budget: at least one and at most `remaining` attempts are made;
the sleeps performed are exactly `max (delay * 2 ^ i) 0.1` for the
attempts that were retried; every retried attempt failed retryably; and
the loop ends either on the last attempt's success, or on its failure with
the single collected error message — the latter only when that failure was
non-retryable or the budget was exhausted. -/
theorem retryLoop_spec (settings : RuntimeSettings)
    (outcome : Nat → Except AnyErr ParsedCandidate) :
    ∀ remaining attempt, 1 ≤ remaining →
      1 ≤ (retryLoop settings outcome attempt remaining).attemptsUsed ∧
      (retryLoop settings outcome attempt remaining).attemptsUsed ≤ remaining ∧
      (retryLoop settings outcome attempt remaining).delays =
        (List.range ((retryLoop settings outcome attempt remaining).attemptsUsed - 1)).map
          (fun i => max (settings.retryDelaySeconds * 2 ^ (attempt + i)) (1 / 10)) ∧
      (∀ i, i + 1 < (retryLoop settings outcome attempt remaining).attemptsUsed →
        ∃ e, outcome (attempt + i) = .error e ∧ isRetryableError e = true) ∧
      (match outcome (attempt + ((retryLoop settings outcome attempt remaining).attemptsUsed - 1)) with
       | .ok c =>
           (retryLoop settings outcome attempt remaining).result = some c ∧
           (retryLoop settings outcome attempt remaining).errors = []
       | .error e =>
           (retryLoop settings outcome attempt remaining).result = none ∧
           (retryLoop settings outcome attempt remaining).errors =
             ["Error processing file: " ++ e.toMessage] ∧
           (isRetryableError e = false ∨
             (retryLoop settings outcome attempt remaining).attemptsUsed = remaining)) := by
  intro remaining
  induction remaining with
  | zero => intro attempt h; exact absurd h (by omega)
  | succ r ih =>
    intro attempt _
    cases ho : outcome attempt with
    | ok c =>
        have hu : (retryLoop settings outcome attempt (r + 1)).attemptsUsed = 1 := by
          simp only [retryLoop, ho]
        have hres : (retryLoop settings outcome attempt (r + 1)).result = some c := by
          simp only [retryLoop, ho]
        have herr : (retryLoop settings outcome attempt (r + 1)).errors = [] := by
          simp only [retryLoop, ho]
        have hd : (retryLoop settings outcome attempt (r + 1)).delays = [] := by
          simp only [retryLoop, ho]
        refine ⟨by omega, by omega, ?_, ?_, ?_⟩
        · rw [hd, hu]
          rfl
        · intro i hi
          rw [hu] at hi
          omega
        · rw [hu]
          simp only [Nat.sub_self, Nat.add_zero]
          rw [ho]
          exact ⟨hres, herr⟩
    | error e =>
        by_cases hcond : (isRetryableError e && decide (r ≠ 0)) = true
        · have hr : 1 ≤ r := by
            have := of_decide_eq_true (Bool.and_eq_true_iff.mp hcond).2
            omega
          have hret : isRetryableError e = true :=
            (Bool.and_eq_true_iff.mp hcond).1
          obtain ⟨ih1, ih2, ih3, ih4, ih5⟩ := ih (attempt + 1) hr
          have hu : (retryLoop settings outcome attempt (r + 1)).attemptsUsed =
              (retryLoop settings outcome (attempt + 1) r).attemptsUsed + 1 := by
            simp only [retryLoop, ho, hcond, if_true]
          have hres : (retryLoop settings outcome attempt (r + 1)).result =
              (retryLoop settings outcome (attempt + 1) r).result := by
            simp only [retryLoop, ho, hcond, if_true]
          have herr : (retryLoop settings outcome attempt (r + 1)).errors =
              (retryLoop settings outcome (attempt + 1) r).errors := by
            simp only [retryLoop, ho, hcond, if_true]
          have hd : (retryLoop settings outcome attempt (r + 1)).delays =
              max (settings.retryDelaySeconds * 2 ^ attempt) (1 / 10) ::
                (retryLoop settings outcome (attempt + 1) r).delays := by
            simp only [retryLoop, ho, hcond, if_true]
          refine ⟨by omega, by omega, ?_, ?_, ?_⟩
          · rw [hd, hu, ih3]
            have hsplit : (retryLoop settings outcome (attempt + 1) r).attemptsUsed + 1 - 1 =
                ((retryLoop settings outcome (attempt + 1) r).attemptsUsed - 1) + 1 := by
              omega
            rw [hsplit, List.range_succ_eq_map]
            simp only [List.map_cons, List.map_map, Nat.add_zero]
            refine congrArg₂ _ rfl ?_
            apply List.map_congr_left
            intro i _
            simp only [Function.comp]
            have harith : attempt + (i + 1) = attempt + 1 + i := by omega
            rw [harith]
          · intro i hi
            rw [hu] at hi
            cases i with
            | zero => exact ⟨e, by simpa using ho, hret⟩
            | succ j =>
                have harith : attempt + (j + 1) = attempt + 1 + j := by omega
                rw [harith]
                exact ih4 j (by omega)
          · rw [hu]
            have hidx : attempt + ((retryLoop settings outcome (attempt + 1) r).attemptsUsed + 1 - 1) =
                attempt + 1 + ((retryLoop settings outcome (attempt + 1) r).attemptsUsed - 1) := by
              omega
            rw [hidx]
            rcases hfin : outcome (attempt + 1 +
                ((retryLoop settings outcome (attempt + 1) r).attemptsUsed - 1)) with e2 | c <;>
              rw [hfin] at ih5
            · exact ⟨hres.trans ih5.1, herr.trans ih5.2.1, ih5.2.2.imp id (by omega)⟩
            · exact ⟨hres.trans ih5.1, herr.trans ih5.2⟩
        · have hfalse : (isRetryableError e && decide (r ≠ 0)) = false := by
            simpa using hcond
          have hu : (retryLoop settings outcome attempt (r + 1)).attemptsUsed = 1 := by
            simp only [retryLoop, ho, hfalse]
            rfl
          have hres : (retryLoop settings outcome attempt (r + 1)).result = none := by
            simp only [retryLoop, ho, hfalse]
            rfl
          have herr : (retryLoop settings outcome attempt (r + 1)).errors =
              ["Error processing file: " ++ e.toMessage] := by
            simp only [retryLoop, ho, hfalse]
            rfl
          have hd : (retryLoop settings outcome attempt (r + 1)).delays = [] := by
            simp only [retryLoop, ho, hfalse]
            rfl
          refine ⟨by omega, by omega, ?_, ?_, ?_⟩
          · rw [hd, hu]
            rfl
          · intro i hi
            rw [hu] at hi
            omega
          · rw [hu]
            simp only [Nat.sub_self, Nat.add_zero]
            rw [ho]
            refine ⟨hres, herr, ?_⟩
            rcases Bool.and_eq_false_iff.mp hfalse with h | h
            · exact Or.inl h
            · right
              have : r = 0 := by simpa using h
              omega

/-- C6: the per-file procedure fails immediately (no attempt) on a blank
file id; otherwise it attempts at most `maxRetries` times, sleeping
`max (retryDelaySeconds * 2 ^ attemptIndex) 0.1` seconds between attempts,
retries exactly the failures classified retryable (`GoogleApi` HTTP 429 or
≥ 500, or a reqwest timeout/connect failure, or a reqwest error carrying
HTTP 429 or ≥ 500), and on a non-retryable failure or an exhausted budget
returns a result record carrying the file identity and an error message
instead of propagating the error. -/
theorem per_file_retry_procedure
    (file : DriveFileRef) (settings : RuntimeSettings)
    (outcome : Nat → Except AnyErr ParsedCandidate)
    (hmax : 1 ≤ settings.maxRetries) :
    (∀ status body, isRetryableError (.core (.googleApi status body)) = true ↔
      (status = 429 ∨ 500 ≤ status)) ∧
    (∀ t c st m, isRetryableError (.reqwest t c st m) = true ↔
      (t = true ∨ c = true ∨ ∃ code, st = some code ∧ (code = 429 ∨ 500 ≤ code))) ∧
    (∀ e, isRetryableError (.core e) = true → ∃ status body, e = .googleApi status body) ∧
    (∀ m, isRetryableError (.other m) = false) ∧
    (strTrim file.id = "" →
      processSingleFileWithRetry file settings outcome =
        (ParsedCandidate.empty (some file.name) none ["Missing file ID"], 0, [])) ∧
    (strTrim file.id ≠ "" →
      1 ≤ (processSingleFileWithRetry file settings outcome).2.1 ∧
      (processSingleFileWithRetry file settings outcome).2.1 ≤ settings.maxRetries ∧
      (processSingleFileWithRetry file settings outcome).2.2 =
        (List.range ((processSingleFileWithRetry file settings outcome).2.1 - 1)).map
          (fun i => max (settings.retryDelaySeconds * 2 ^ i) (1 / 10)) ∧
      (∀ i, i + 1 < (processSingleFileWithRetry file settings outcome).2.1 →
        ∃ e, outcome i = .error e ∧ isRetryableError e = true) ∧
      (match outcome ((processSingleFileWithRetry file settings outcome).2.1 - 1) with
       | .ok c => (processSingleFileWithRetry file settings outcome).1 = c
       | .error e =>
           (isRetryableError e = false ∨
             (processSingleFileWithRetry file settings outcome).2.1 = settings.maxRetries) ∧
           (processSingleFileWithRetry file settings outcome).1 =
             { driveFileId := some file.id, sourceFile := some file.name
               name := none, email := none, phone := none, linkedIn := none
               gitHub := none, confidence := 0
               errors := ["Error processing file: " ++ e.toMessage] })) := by
  obtain ⟨h1, h2, h3, h4, h5⟩ := retryLoop_spec settings outcome settings.maxRetries 0 hmax
  refine ⟨?_, ?_, ?_, ?_, ?_, ?_⟩
  · intro status body
    simp [isRetryableError, CoreError.isRetryable]
  · intro t c st m
    cases t <;> cases c <;> cases st <;> simp [isRetryableError]
  · intro e he
    cases e <;> simp_all [isRetryableError, CoreError.isRetryable]
  · intro m
    rfl
  · intro hid
    unfold processSingleFileWithRetry
    rw [if_pos hid]
  · intro hid
    have e1 : (processSingleFileWithRetry file settings outcome).2.1 =
        (retryLoop settings outcome 0 settings.maxRetries).attemptsUsed := by
      unfold processSingleFileWithRetry
      rw [if_neg hid]
    have e2 : (processSingleFileWithRetry file settings outcome).2.2 =
        (retryLoop settings outcome 0 settings.maxRetries).delays := by
      unfold processSingleFileWithRetry
      rw [if_neg hid]
    have e3 : (processSingleFileWithRetry file settings outcome).1 =
        (match (retryLoop settings outcome 0 settings.maxRetries).result with
         | some candidate => candidate
         | none =>
             { driveFileId := some file.id, sourceFile := some file.name
               name := none, email := none, phone := none, linkedIn := none
               gitHub := none, confidence := 0
               errors := (retryLoop settings outcome 0 settings.maxRetries).errors }) := by
      unfold processSingleFileWithRetry
      rw [if_neg hid]
    refine ⟨?_, ?_, ?_, ?_, ?_⟩
    · rw [e1]
      exact h1
    · rw [e1]
      exact h2
    · rw [e2, e1, h3]
      apply List.map_congr_left
      intro i _
      rw [Nat.zero_add]
    · intro i hi
      rw [e1] at hi
      have hh := h4 i hi
      rwa [Nat.zero_add] at hh
    · rw [e1]
      rw [Nat.zero_add] at h5
      rcases hfin : outcome
          ((retryLoop settings outcome 0 settings.maxRetries).attemptsUsed - 1) with e | cnd <;>
        rw [hfin] at h5
      · refine ⟨h5.2.2, ?_⟩
        rw [e3, h5.1, h5.2.1]
      · rw [e3, h5.1]

/-- Witness for C6: one retryable 500 failure, then success on the second
of three allowed attempts. -/
theorem per_file_retry_procedure_witness :
    1 ≤ (processSingleFileWithRetry
      { id := "file-1", name := "cv.pdf", mimeType := "application/pdf" }
      { googleClientId := "client-1", googleClientSecret := none
        tesseractPath := "tesseract", maxConcurrentRequests := 5
        spreadsheetBatchSize := 10, maxRetries := 3
        retryDelaySeconds := 1, jobRetentionHours := 24 }
      (fun n => if n = 0 then .error (.core (.googleApi 500 "boom"))
                else .ok (ParsedCandidate.empty (some "cv.pdf") (some "file-1") []))).2.1 :=
  ((per_file_retry_procedure
      { id := "file-1", name := "cv.pdf", mimeType := "application/pdf" }
      { googleClientId := "client-1", googleClientSecret := none
        tesseractPath := "tesseract", maxConcurrentRequests := 5
        spreadsheetBatchSize := 10, maxRetries := 3
        retryDelaySeconds := 1, jobRetentionHours := 24 }
      (fun n => if n = 0 then .error (.core (.googleApi 500 "boom"))
                else .ok (ParsedCandidate.empty (some "cv.pdf") (some "file-1") []))
      (by decide)).2.2.2.2.2 (by decide)).1

/-! ### Pipeline loop invariants -/

theorem appendedRowCount_append (a b : List Event) :
    appendedRowCount (a ++ b) = appendedRowCount a + appendedRowCount b := by
  induction a with
  | nil => simp [appendedRowCount]
  | cons ev rest ih =>
    cases ev with
    | appendedRows rows skip =>
        cases skip <;> simp [appendedRowCount, ih] <;> omega
    | savedStatus s => simp [appendedRowCount, ih]
    | savedResults r => simp [appendedRowCount, ih]
    | removedHandle => simp [appendedRowCount, ih]

theorem batch_rows_length_le (env : PipelineEnv) (settings : RuntimeSettings)
    (base : Nat) (batch : List DriveFileRef) :
    (((batchResultsOf env settings base batch).map candidateRow).filter
      rowNonBlank).length ≤ batch.length := by
  calc (((batchResultsOf env settings base batch).map candidateRow).filter
          rowNonBlank).length
      ≤ ((batchResultsOf env settings base batch).map candidateRow).length :=
        List.length_filter_le _ _
    _ = (batchResultsOf env settings base batch).length := List.length_map _ _
    _ = batch.length := by
        unfold batchResultsOf
        rw [List.length_map, List.enum_length]

theorem finishBatch_trace (jobId : String) (sheetId : Option String) (total : Nat)
    (st : LoopState) (batchResults : List ParsedCandidate) (processedNew : Nat)
    (appendEvents : List Event)
    (hev : ∀ ev ∈ appendEvents, isTerminalSave ev = false ∧ isSavedResults ev = false) :
    ∃ evs,
      (finishBatch jobId sheetId total st batchResults processedNew appendEvents).trace =
        st.trace ++ evs ∧
      ∀ ev ∈ evs, isTerminalSave ev = false ∧ isSavedResults ev = false := by
  refine ⟨appendEvents ++
    [.savedStatus
      { jobId := jobId, status := .processing
        progress := progressOf processedNew total, totalFiles := total
        processedFiles := processedNew, spreadsheetId := sheetId
        resultsCount := some (st.results ++ batchResults).length
        error := none }], by simp [finishBatch], ?_⟩
  intro ev hev2
  rcases List.mem_append.mp hev2 with hl | hl
  · exact hev ev hl
  · simp at hl
    subst hl
    exact ⟨rfl, rfl⟩

theorem batchStep_ok (env : PipelineEnv) (settings : RuntimeSettings) (jobId : String)
    (sheetId : Option String) (total base batchIdx : Nat)
    (batch : List DriveFileRef) (st st2 : LoopState)
    (h : batchStep env settings jobId sheetId total base batchIdx batch st = .ok st2) :
    st2.processed ≤ st.processed + batch.length ∧
    st.processed ≤ st2.processed ∧
    st2.checks = st.checks ∧
    (∃ evs, st2.trace = st.trace ++ evs ∧
      ∀ ev ∈ evs, isTerminalSave ev = false ∧ isSavedResults ev = false) ∧
    (sheetId.isSome = true →
      st2.processed + appendedRowCount st.trace =
        st.processed + appendedRowCount st2.trace) := by
  have hrowlen := batch_rows_length_le env settings base batch
  cases sheetId with
  | none =>
      simp only [batchStep] at h
      by_cases hempty :
          (((batchResultsOf env settings base batch).map candidateRow).filter
            rowNonBlank).isEmpty = true
      · rw [if_pos hempty] at h
        simp only [Except.ok.injEq] at h
        subst h
        refine ⟨by simp [finishBatch], by simp [finishBatch], by simp [finishBatch],
          ?_, ?_⟩
        · exact finishBatch_trace _ _ _ _ _ _ _ (by intro ev hev; simp at hev)
        · intro hsome
          simp at hsome
      · rw [if_neg hempty] at h
        simp only [Except.ok.injEq] at h
        subst h
        refine ⟨?_, by simp [finishBatch], by simp [finishBatch], ?_, ?_⟩
        · simp only [finishBatch]
          omega
        · exact finishBatch_trace _ _ _ _ _ _ _ (by intro ev hev; simp at hev)
        · intro hsome
          simp at hsome
  | some sheet =>
      simp only [batchStep] at h
      by_cases hempty :
          (((batchResultsOf env settings base batch).map candidateRow).filter
            rowNonBlank).isEmpty = true
      · rw [if_pos hempty] at h
        simp only [Except.ok.injEq] at h
        subst h
        refine ⟨by simp [finishBatch], by simp [finishBatch], by simp [finishBatch],
          ?_, ?_⟩
        · exact finishBatch_trace _ _ _ _ _ _ _ (by intro ev hev; simp at hev)
        · intro _
          simp [finishBatch, appendedRowCount_append, appendedRowCount]
      · rw [if_neg hempty] at h
        cases happ : env.batchAppend batchIdx with
        | error e =>
            rw [happ] at h
            exact absurd h (by simp)
        | ok u =>
            rw [happ] at h
            simp only [Except.ok.injEq] at h
            subst h
            refine ⟨?_, by simp [finishBatch], by simp [finishBatch], ?_, ?_⟩
            · simp only [finishBatch]
              omega
            · exact finishBatch_trace _ _ _ _ _ _ _
                (by intro ev hev; simp at hev; subst hev; exact ⟨rfl, rfl⟩)
            · intro _
              simp only [finishBatch, appendedRowCount_append, appendedRowCount]
              omega

theorem runBatches_spec (env : PipelineEnv) (settings : RuntimeSettings)
    (jobId : String) (sheetId : Option String) (total : Nat) :
    ∀ fuel files base batchIdx st,
      (runBatches env settings jobId sheetId total fuel files base batchIdx st).2.processed ≤
        st.processed + files.length ∧
      st.processed ≤
        (runBatches env settings jobId sheetId total fuel files base batchIdx st).2.processed ∧
      (∃ evs,
        (runBatches env settings jobId sheetId total fuel files base batchIdx st).2.trace =
          st.trace ++ evs ∧
        ∀ ev ∈ evs, isTerminalSave ev = false ∧ isSavedResults ev = false) ∧
      (sheetId.isSome = true →
        (runBatches env settings jobId sheetId total fuel files base batchIdx st).2.processed +
            appendedRowCount st.trace =
          st.processed +
            appendedRowCount
              (runBatches env settings jobId sheetId total fuel files base batchIdx st).2.trace) := by
  intro fuel
  induction fuel with
  | zero =>
      intro files base batchIdx st
      cases files <;>
        exact ⟨by simp [runBatches], by simp [runBatches],
          ⟨[], by simp [runBatches], by intro ev hev; simp at hev⟩,
          by intro _; simp [runBatches]⟩
  | succ f ih =>
      intro files base batchIdx st
      cases files with
      | nil =>
          exact ⟨by simp [runBatches], by simp [runBatches],
            ⟨[], by simp [runBatches], by intro ev hev; simp at hev⟩,
            by intro _; simp [runBatches]⟩
      | cons x rest =>
          by_cases hc : cancelRead env.cancelFrom batchIdx = true
          · have hrun : runBatches env settings jobId sheetId total (f + 1)
                (x :: rest) base batchIdx st =
                (some (.other "job canceled"), { st with checks := st.checks + 1 }) := by
              simp only [runBatches, hc, if_true]
            rw [hrun]
            exact ⟨by simp, by simp,
              ⟨[], by simp, by intro ev hev; simp at hev⟩,
              by intro _; simp⟩
          · have hcf : cancelRead env.cancelFrom batchIdx = false := by
              simpa using hc
            rcases hbs : batchStep env settings jobId sheetId total base batchIdx
                ((x :: rest).take (max settings.spreadsheetBatchSize 1))
                { st with checks := st.checks + 1 } with e | st2
            ·
                have hrun : runBatches env settings jobId sheetId total (f + 1)
                    (x :: rest) base batchIdx st =
                    (some e, { st with checks := st.checks + 1 }) := by
                  simp only [runBatches, hcf, Bool.false_eq_true, if_false, hbs]
                rw [hrun]
                exact ⟨by simp, by simp,
                  ⟨[], by simp, by intro ev hev; simp at hev⟩,
                  by intro _; simp⟩
            ·
                have hrun : runBatches env settings jobId sheetId total (f + 1)
                    (x :: rest) base batchIdx st =
                    runBatches env settings jobId sheetId total f
                      ((x :: rest).drop (max settings.spreadsheetBatchSize 1))
                      (base + ((x :: rest).take (max settings.spreadsheetBatchSize 1)).length)
                      (batchIdx + 1) st2 := by
                  simp only [runBatches, hcf, Bool.false_eq_true, if_false, hbs]
                rw [hrun]
                obtain ⟨hb1, hb2, hb3, ⟨evs1, hbt, hbev⟩, hbcount⟩ :=
                  batchStep_ok env settings jobId sheetId total base batchIdx
                    ((x :: rest).take (max settings.spreadsheetBatchSize 1))
                    { st with checks := st.checks + 1 } st2 hbs
                obtain ⟨hr1, hr2, ⟨evs2, hrt, hrev⟩, hrcount⟩ :=
                  ih ((x :: rest).drop (max settings.spreadsheetBatchSize 1))
                    (base + ((x :: rest).take (max settings.spreadsheetBatchSize 1)).length)
                    (batchIdx + 1) st2
                have hlen1 : ((x :: rest).take (max settings.spreadsheetBatchSize 1)).length =
                    min (max settings.spreadsheetBatchSize 1) (x :: rest).length :=
                  List.length_take _ _
                have hlen2 : ((x :: rest).drop (max settings.spreadsheetBatchSize 1)).length =
                    (x :: rest).length - max settings.spreadsheetBatchSize 1 :=
                  List.length_drop _ _
                have hstproc : ({ st with checks := st.checks + 1 } : LoopState).processed =
                    st.processed := rfl
                have hsttrace : ({ st with checks := st.checks + 1 } : LoopState).trace =
                    st.trace := rfl
                refine ⟨?_, ?_, ?_, ?_⟩
                · rw [hstproc] at hb1
                  omega
                · rw [hstproc] at hb2
                  omega
                · refine ⟨evs1 ++ evs2, ?_, ?_⟩
                  · rw [hrt, hbt, hsttrace, List.append_assoc]
                  · intro ev hev
                    rcases List.mem_append.mp hev with hl | hl
                    · exact hbev ev hl
                    · exact hrev ev hl
                · intro hsome
                  have hc1 := hbcount hsome
                  have hc2 := hrcount hsome
                  rw [hstproc, hsttrace] at hc1
                  omega

theorem ensureSheet_ok (env : PipelineEnv) (reqSheet sheet : Option String)
    (evs : List Event) (h : ensureSheet env reqSheet = .ok (sheet, evs)) :
    sheet.isSome = true ∧ appendedRowCount evs = 0 ∧
    ∀ ev ∈ evs, isTerminalSave ev = false ∧ isSavedResults ev = false := by
  unfold ensureSheet at h
  by_cases hc : (reqSheet.getD "") = ""
  · rw [if_pos hc] at h
    cases hcr : env.createSheetResult with
    | error e =>
        rw [hcr] at h
        exact absurd h (by simp)
    | ok created =>
        rw [hcr] at h
        cases hha : env.headerAppendResult with
        | error e =>
            rw [hha] at h
            exact absurd h (by simp)
        | ok u =>
            rw [hha] at h
            simp only [Except.ok.injEq, Prod.mk.injEq] at h
            obtain ⟨h1, h2⟩ := h
            subst h1
            subst h2
            refine ⟨rfl, rfl, ?_⟩
            intro ev hev
            simp at hev
            subst hev
            exact ⟨rfl, rfl⟩
  · rw [if_neg hc] at h
    simp only [Except.ok.injEq, Prod.mk.injEq] at h
    obtain ⟨h1, h2⟩ := h
    subst h1
    subst h2
    cases reqSheet with
    | none => exact absurd rfl hc
    | some s =>
        refine ⟨rfl, rfl, ?_⟩
        intro ev hev
        simp at hev

theorem runBatchPipeline_spec (env : PipelineEnv) (settings : RuntimeSettings)
    (req : BatchParseRequest) (jobId : String) :
    (runBatchPipeline env settings req jobId).processed ≤
      (runBatchPipeline env settings req jobId).totalFiles ∧
    (runBatchPipeline env settings req jobId).processed =
      appendedRowCount (runBatchPipeline env settings req jobId).trace ∧
    (∀ ev ∈ (runBatchPipeline env settings req jobId).trace, isTerminalSave ev = false) ∧
    ((runBatchPipeline env settings req jobId).err.isSome = true →
      ∀ ev ∈ (runBatchPipeline env settings req jobId).trace, isSavedResults ev = false) := by
  cases htok : env.tokenResult with
  | error e =>
      have hp : runBatchPipeline env settings req jobId =
          { err := some e, sheetId := req.spreadsheetId, results := [], processed := 0
            totalFiles := 0, checks := 0
            trace := [.savedStatus
              { jobId := jobId, status := .processing, progress := 0, totalFiles := 0
                processedFiles := 0, spreadsheetId := req.spreadsheetId
                resultsCount := none, error := none }] } := by
        simp only [runBatchPipeline, htok]
      rw [hp]
      refine ⟨by simp, by rfl, ?_, ?_⟩
      · intro ev hev
        simp at hev
        subst hev
        rfl
      · intro _ ev hev
        simp at hev
        subst hev
        rfl
  | ok tokv =>
  cases hlist : env.listResult with
  | error e =>
      have hp : runBatchPipeline env settings req jobId =
          { err := some e, sheetId := req.spreadsheetId, results := [], processed := 0
            totalFiles := 0, checks := 0
            trace := [.savedStatus
              { jobId := jobId, status := .processing, progress := 0, totalFiles := 0
                processedFiles := 0, spreadsheetId := req.spreadsheetId
                resultsCount := none, error := none }] } := by
        simp only [runBatchPipeline, htok, hlist]
      rw [hp]
      refine ⟨by simp, by rfl, ?_, ?_⟩
      · intro ev hev
        simp at hev
        subst hev
        rfl
      · intro _ ev hev
        simp at hev
        subst hev
        rfl
  | ok files =>
  by_cases hfe : files.isEmpty = true
  · have hp : runBatchPipeline env settings req jobId =
        { err := none, sheetId := req.spreadsheetId, results := [], processed := 0
          totalFiles := 0, checks := 0
          trace := [.savedStatus
            { jobId := jobId, status := .processing, progress := 0, totalFiles := 0
              processedFiles := 0, spreadsheetId := req.spreadsheetId
              resultsCount := none, error := none }] ++ [.savedResults []] } := by
      simp only [runBatchPipeline, htok, hlist, hfe, if_true]
    rw [hp]
    refine ⟨by simp, by rfl, ?_, ?_⟩
    · intro ev hev
      simp at hev
      rcases hev with hev | hev <;> subst hev <;> rfl
    · intro habs
      simp at habs
  · cases hens : ensureSheet env req.spreadsheetId with
    | error e =>
        have hp : runBatchPipeline env settings req jobId =
            { err := some e, sheetId := req.spreadsheetId, results := [], processed := 0
              totalFiles := files.length, checks := 0
              trace := [.savedStatus
                { jobId := jobId, status := .processing, progress := 0, totalFiles := 0
                  processedFiles := 0, spreadsheetId := req.spreadsheetId
                  resultsCount := none, error := none }] } := by
          simp only [runBatchPipeline, htok, hlist, hfe, Bool.false_eq_true, if_false, hens]
        rw [hp]
        refine ⟨by simp, by rfl, ?_, ?_⟩
        · intro ev hev
          simp at hev
          subst hev
          rfl
        · intro _ ev hev
          simp at hev
          subst hev
          rfl
    | ok pair =>
        obtain ⟨sheet, sheetEvents⟩ := pair
        obtain ⟨hsome, hcount0, hclean⟩ :=
          ensureSheet_ok env req.spreadsheetId sheet sheetEvents hens
        have herrEq : (runBatchPipeline env settings req jobId).err =
            (runBatches env settings jobId sheet files.length files.length files 0 0
              (pipeStartState req jobId sheet sheetEvents files.length)).1 := by
          simp only [runBatchPipeline, htok, hlist, hfe, Bool.false_eq_true, if_false, hens]
        have hprocEq : (runBatchPipeline env settings req jobId).processed =
            (runBatches env settings jobId sheet files.length files.length files 0 0
              (pipeStartState req jobId sheet sheetEvents files.length)).2.processed := by
          simp only [runBatchPipeline, htok, hlist, hfe, Bool.false_eq_true, if_false, hens]
        have htotEq : (runBatchPipeline env settings req jobId).totalFiles =
            files.length := by
          simp only [runBatchPipeline, htok, hlist, hfe, Bool.false_eq_true, if_false, hens]
        have htrEq : (runBatchPipeline env settings req jobId).trace =
            (runBatches env settings jobId sheet files.length files.length files 0 0
              (pipeStartState req jobId sheet sheetEvents files.length)).2.trace := by
          simp only [runBatchPipeline, htok, hlist, hfe, Bool.false_eq_true, if_false, hens]
        obtain ⟨hr1, hr2, ⟨evs2, hrt, hrev⟩, hrcount⟩ :=
          runBatches_spec env settings jobId sheet files.length files.length files 0 0
            (pipeStartState req jobId sheet sheetEvents files.length)
        have hssproc : (pipeStartState req jobId sheet sheetEvents files.length).processed = 0 :=
          rfl
        have hsscount :
            appendedRowCount (pipeStartState req jobId sheet sheetEvents files.length).trace = 0 := by
          unfold pipeStartState
          rw [appendedRowCount_append, appendedRowCount_append]
          simp [appendedRowCount, hcount0]
        have hssmem : ∀ ev ∈ (pipeStartState req jobId sheet sheetEvents files.length).trace,
            isTerminalSave ev = false ∧ isSavedResults ev = false := by
          intro ev hev
          unfold pipeStartState at hev
          simp only [List.mem_append] at hev
          rcases hev with (hn | hn) | hn
          · simp at hn
            subst hn
            exact ⟨rfl, rfl⟩
          · exact hclean ev hn
          · simp at hn
            subst hn
            exact ⟨rfl, rfl⟩
        refine ⟨?_, ?_, ?_, ?_⟩
        · rw [hprocEq, htotEq]
          rw [hssproc] at hr1
          omega
        · rw [hprocEq, htrEq]
          have := hrcount hsome
          rw [hssproc, hsscount] at this
          omega
        · intro ev hev
          rw [htrEq, hrt] at hev
          rcases List.mem_append.mp hev with hl | hl
          · exact (hssmem ev hl).1
          · exact (hrev ev hl).1
        · intro _ ev hev
          rw [htrEq, hrt] at hev
          rcases List.mem_append.mp hev with hl | hl
          · exact (hssmem ev hl).2
          · exact (hrev ev hl).2

/-! ### C8 — cancellation semantics -/

theorem lookupKey_removeKey_self : ∀ (reg : List (String × Bool)) (k : String),
    lookupKey (removeKey reg k) k = none := by
  intro reg k
  induction reg with
  | nil => rfl
  | cons kv rest ih =>
      by_cases h : kv.1 = k
      · have hb : (kv.1 != k) = false := by simp [h]
        simp only [removeKey, List.filter_cons, hb, Bool.false_eq_true, if_false]
        simpa [removeKey] using ih
      · have hb : (kv.1 != k) = true := by simp [h]
        simp only [removeKey, List.filter_cons, hb, if_true]
        simp only [lookupKey, List.find?]
        have hbeq : (kv.1 == k) = false := by simp [h]
        rw [hbeq]
        simpa [removeKey, lookupKey] using ih

theorem lookupKey_removeKey_ne : ∀ (reg : List (String × Bool)) (k k' : String),
    k' ≠ k → lookupKey (removeKey reg k) k' = lookupKey reg k' := by
  intro reg k k' hkk
  induction reg with
  | nil => rfl
  | cons kv rest ih =>
      by_cases h : kv.1 = k
      · have hb : (kv.1 != k) = false := by simp [h]
        have hbeq : (kv.1 == k') = false := by
          simp only [beq_eq_false_iff_ne, ne_eq]
          intro he
          exact hkk (by rw [← he, h])
        simp only [removeKey, List.filter_cons, hb, Bool.false_eq_true, if_false]
        rw [show lookupKey (kv :: rest) k' =
            lookupKey rest k' by simp [lookupKey, List.find?, hbeq]]
        simpa [removeKey] using ih
      · have hb : (kv.1 != k) = true := by simp [h]
        simp only [removeKey, List.filter_cons, hb, if_true]
        by_cases hk' : kv.1 = k'
        · have hbeq : (kv.1 == k') = true := by simp [hk']
          simp [lookupKey, List.find?, hbeq]
        · have hbeq : (kv.1 == k') = false := by simp [hk']
          simp only [lookupKey, List.find?, hbeq]
          simpa [removeKey, lookupKey] using ih

/-- C8: `cancel_job` reports true exactly when a live handle is registered,
never changes which job ids are registered, is a complete no-op when the
id is absent; and the pipeline's owner removes its handle after pipeline
exit and before the terminal status write, so a cancel arriving after the
run reports "not found" (false). -/
theorem cancel_job_semantics :
    (∀ reg jobId, (cancelJob reg jobId).1 = (lookupKey reg jobId).isSome) ∧
    (∀ reg jobId k, (lookupKey (cancelJob reg jobId).2 k).isSome =
      (lookupKey reg k).isSome) ∧
    (∀ reg jobId, lookupKey reg jobId = none → (cancelJob reg jobId).2 = reg) ∧
    (∀ env settings req jobId reg,
      (cancelJob (processBatchJob env settings req jobId reg).registryAfter jobId).1 =
        false ∧
      ∃ pre post, (processBatchJob env settings req jobId reg).trace =
          pre ++ Event.removedHandle :: post ∧
        (∀ ev ∈ pre, isTerminalSave ev = false) ∧
        ∃ ev ∈ post, isTerminalSave ev = true) := by
  refine ⟨?_, ?_, ?_, ?_⟩
  · intro reg jobId
    cases hl : lookupKey reg jobId with
    | none => simp [cancelJob, hl]
    | some b => simp [cancelJob, hl]
  · intro reg jobId k
    cases hl : lookupKey reg jobId with
    | none => simp [cancelJob, hl]
    | some b =>
        simp only [cancelJob, hl]
        by_cases hk : k = jobId
        · subst hk
          have hLHS : lookupKey (insertKey reg k true) k = some true := by
            simp [insertKey, lookupKey, List.find?]
          rw [hLHS, hl]
          rfl
        · have hbeq : (jobId == k) = false := by
            simp only [beq_eq_false_iff_ne, ne_eq]
            exact fun he => hk he.symm
          simp only [insertKey, lookupKey, List.find?, hbeq]
          rw [show ((removeKey reg jobId).find? fun kv => kv.1 == k) =
              ((removeKey reg jobId).find? fun kv => kv.1 == k) from rfl]
          have := lookupKey_removeKey_ne reg jobId k hk
          simp only [lookupKey] at this
          rw [this]
  · intro reg jobId h
    simp [cancelJob, h]
  · intro env settings req jobId reg
    constructor
    · have hnone : lookupKey
          (processBatchJob env settings req jobId reg).registryAfter jobId = none := by
        have hreg : (processBatchJob env settings req jobId reg).registryAfter =
            removeKey (insertKey reg jobId false) jobId := by
          simp only [processBatchJob]
          cases (runBatchPipeline env settings req jobId).err <;> rfl
        rw [hreg]
        exact lookupKey_removeKey_self _ _
      simp [cancelJob, hnone]
    · obtain ⟨hple, hpcount, hpterm, hpsr⟩ := runBatchPipeline_spec env settings req jobId
      cases herr : (runBatchPipeline env settings req jobId).err with
      | none =>
          have htr : (processBatchJob env settings req jobId reg).trace =
              (runBatchPipeline env settings req jobId).trace ++
                Event.removedHandle ::
                  [.savedResults (runBatchPipeline env settings req jobId).results,
                   .savedStatus
                     { jobId := jobId, status := .completed, progress := 100
                       totalFiles := (runBatchPipeline env settings req jobId).totalFiles
                       processedFiles := (runBatchPipeline env settings req jobId).processed
                       spreadsheetId := (runBatchPipeline env settings req jobId).sheetId
                       resultsCount :=
                         some (runBatchPipeline env settings req jobId).results.length
                       error := none }] := by
            simp only [processBatchJob, herr]
          refine ⟨_, _, htr, hpterm, ?_⟩
          refine ⟨.savedStatus
            { jobId := jobId, status := .completed, progress := 100
              totalFiles := (runBatchPipeline env settings req jobId).totalFiles
              processedFiles := (runBatchPipeline env settings req jobId).processed
              spreadsheetId := (runBatchPipeline env settings req jobId).sheetId
              resultsCount := some (runBatchPipeline env settings req jobId).results.length
              error := none }, by simp, rfl⟩
      | some e =>
          have htr : (processBatchJob env settings req jobId reg).trace =
              (runBatchPipeline env settings req jobId).trace ++
                Event.removedHandle ::
                  [.savedStatus
                     { jobId := jobId
                       status :=
                         if cancelRead env.cancelFrom
                             (runBatchPipeline env settings req jobId).checks
                         then .revoked else .failed
                       progress :=
                         progressOf (runBatchPipeline env settings req jobId).processed
                           (runBatchPipeline env settings req jobId).totalFiles
                       totalFiles := (runBatchPipeline env settings req jobId).totalFiles
                       processedFiles := (runBatchPipeline env settings req jobId).processed
                       spreadsheetId := (runBatchPipeline env settings req jobId).sheetId
                       resultsCount :=
                         some (runBatchPipeline env settings req jobId).results.length
                       error := some e.toMessage }] := by
            simp only [processBatchJob, herr]
          refine ⟨_, _, htr, hpterm, ?_⟩
          refine ⟨.savedStatus
            { jobId := jobId
              status :=
                if cancelRead env.cancelFrom
                    (runBatchPipeline env settings req jobId).checks
                then .revoked else .failed
              progress :=
                progressOf (runBatchPipeline env settings req jobId).processed
                  (runBatchPipeline env settings req jobId).totalFiles
              totalFiles := (runBatchPipeline env settings req jobId).totalFiles
              processedFiles := (runBatchPipeline env settings req jobId).processed
              spreadsheetId := (runBatchPipeline env settings req jobId).sheetId
              resultsCount := some (runBatchPipeline env settings req jobId).results.length
              error := some e.toMessage }, by simp, ?_⟩
          by_cases hb : cancelRead env.cancelFrom
              (runBatchPipeline env settings req jobId).checks = true
          · simp [isTerminalSave, hb]
          · simp only [Bool.not_eq_true] at hb
            simp [isTerminalSave, hb]

/-- Witness for C8 at a one-entry registry. -/
theorem cancel_job_semantics_witness :
    (cancelJob [("job-1", false)] "job-1").1 = true := by
  have h := cancel_job_semantics.1 [("job-1", false)] "job-1"
  simpa [lookupKey, List.find?] using h

/-! ### C7 — completed-job invariants -/

theorem progressOf_le_99 (p t : Nat) : progressOf p t ≤ 99 := by
  unfold progressOf
  split
  · omega
  · exact min_le_right _ _

/-- C7: every job that reaches the `Completed` terminal state satisfies
`processedFiles ≤ totalFiles`, `progress = 100`, and `resultsCount` equal
to the length of the results array persisted by the terminal phase. -/
theorem completed_job_invariants (env : PipelineEnv) (settings : RuntimeSettings)
    (req : BatchParseRequest) (jobId : String) (reg : List (String × Bool))
    (h : (processBatchJob env settings req jobId reg).finalStatus.status = .completed) :
    (processBatchJob env settings req jobId reg).finalStatus.processedFiles ≤
      (processBatchJob env settings req jobId reg).finalStatus.totalFiles ∧
    (processBatchJob env settings req jobId reg).finalStatus.progress = 100 ∧
    ∃ rs, (processBatchJob env settings req jobId reg).savedResultsFinal = some rs ∧
      Event.savedResults rs ∈ (processBatchJob env settings req jobId reg).trace ∧
      (processBatchJob env settings req jobId reg).finalStatus.resultsCount =
        some rs.length := by
  obtain ⟨hple, hpcount, hpterm, hpsr⟩ := runBatchPipeline_spec env settings req jobId
  cases herr : (runBatchPipeline env settings req jobId).err with
  | some e =>
      exfalso
      have hfs : (processBatchJob env settings req jobId reg).finalStatus.status =
          (if cancelRead env.cancelFrom (runBatchPipeline env settings req jobId).checks
           then JobProcessingState.revoked else JobProcessingState.failed) := by
        simp only [processBatchJob, herr]
      rw [hfs] at h
      by_cases hb : cancelRead env.cancelFrom
          (runBatchPipeline env settings req jobId).checks = true
      · rw [if_pos hb] at h
        exact JobProcessingState.noConfusion h
      · rw [if_neg hb] at h
        exact JobProcessingState.noConfusion h
  | none =>
      have hfs : (processBatchJob env settings req jobId reg).finalStatus =
          { jobId := jobId, status := .completed, progress := 100
            totalFiles := (runBatchPipeline env settings req jobId).totalFiles
            processedFiles := (runBatchPipeline env settings req jobId).processed
            spreadsheetId := (runBatchPipeline env settings req jobId).sheetId
            resultsCount := some (runBatchPipeline env settings req jobId).results.length
            error := none } := by
        simp only [processBatchJob, herr]
      have hsr2 : (processBatchJob env settings req jobId reg).savedResultsFinal =
          some (runBatchPipeline env settings req jobId).results := by
        simp only [processBatchJob, herr]
      have htr : (processBatchJob env settings req jobId reg).trace =
          (runBatchPipeline env settings req jobId).trace ++
            [Event.removedHandle,
             Event.savedResults (runBatchPipeline env settings req jobId).results,
             Event.savedStatus
               { jobId := jobId, status := .completed, progress := 100
                 totalFiles := (runBatchPipeline env settings req jobId).totalFiles
                 processedFiles := (runBatchPipeline env settings req jobId).processed
                 spreadsheetId := (runBatchPipeline env settings req jobId).sheetId
                 resultsCount :=
                   some (runBatchPipeline env settings req jobId).results.length
                 error := none }] := by
        simp only [processBatchJob, herr]
      refine ⟨?_, ?_, (runBatchPipeline env settings req jobId).results, hsr2, ?_, ?_⟩
      · rw [hfs]
        exact hple
      · rw [hfs]
      · rw [htr]
        simp
      · rw [hfs]

/-! ### C1 — aborted-job terminal write -/

/-- C1 (amended): when the pipeline aborts with error `e`, the orchestrator
removes the handle and writes exactly one terminal status — `Revoked` if
the cancellation token reads signalled at that point, else `Failed` —
carrying the error message, a progress clamped to ≤ 99, and a
`resultsCount` equal to the number of partial results accumulated; but the
partial results array itself is NOT persisted: no `save_results` write
occurs anywhere in the run. -/
theorem aborted_job_terminal_write (env : PipelineEnv) (settings : RuntimeSettings)
    (req : BatchParseRequest) (jobId : String) (reg : List (String × Bool))
    (e : AnyErr)
    (herr : (runBatchPipeline env settings req jobId).err = some e) :
    (processBatchJob env settings req jobId reg).finalStatus.status =
      (if cancelRead env.cancelFrom (runBatchPipeline env settings req jobId).checks
       then JobProcessingState.revoked else JobProcessingState.failed) ∧
    (processBatchJob env settings req jobId reg).finalStatus.error =
      some e.toMessage ∧
    (processBatchJob env settings req jobId reg).finalStatus.progress ≤ 99 ∧
    (processBatchJob env settings req jobId reg).finalStatus.resultsCount =
      some (runBatchPipeline env settings req jobId).results.length ∧
    (processBatchJob env settings req jobId reg).savedResultsFinal = none ∧
    ∀ ev ∈ (processBatchJob env settings req jobId reg).trace,
      isSavedResults ev = false := by
  obtain ⟨hple, hpcount, hpterm, hpsr⟩ := runBatchPipeline_spec env settings req jobId
  have hfs : (processBatchJob env settings req jobId reg).finalStatus =
      { jobId := jobId
        status :=
          if cancelRead env.cancelFrom (runBatchPipeline env settings req jobId).checks
          then .revoked else .failed
        progress :=
          progressOf (runBatchPipeline env settings req jobId).processed
            (runBatchPipeline env settings req jobId).totalFiles
        totalFiles := (runBatchPipeline env settings req jobId).totalFiles
        processedFiles := (runBatchPipeline env settings req jobId).processed
        spreadsheetId := (runBatchPipeline env settings req jobId).sheetId
        resultsCount := some (runBatchPipeline env settings req jobId).results.length
        error := some e.toMessage } := by
    simp only [processBatchJob, herr]
  have hsr2 : (processBatchJob env settings req jobId reg).savedResultsFinal = none := by
    simp only [processBatchJob, herr]
  have htr : (processBatchJob env settings req jobId reg).trace =
      (runBatchPipeline env settings req jobId).trace ++
        [Event.removedHandle,
         Event.savedStatus
           { jobId := jobId
             status :=
               if cancelRead env.cancelFrom
                   (runBatchPipeline env settings req jobId).checks
               then .revoked else .failed
             progress :=
               progressOf (runBatchPipeline env settings req jobId).processed
                 (runBatchPipeline env settings req jobId).totalFiles
             totalFiles := (runBatchPipeline env settings req jobId).totalFiles
             processedFiles := (runBatchPipeline env settings req jobId).processed
             spreadsheetId := (runBatchPipeline env settings req jobId).sheetId
             resultsCount :=
               some (runBatchPipeline env settings req jobId).results.length
             error := some e.toMessage }] := by
    simp only [processBatchJob, herr]
  refine ⟨by rw [hfs], by rw [hfs], ?_, by rw [hfs], hsr2, ?_⟩
  · rw [hfs]
    exact progressOf_le_99 _ _
  · intro ev hev
    rw [htr] at hev
    rcases List.mem_append.mp hev with hl | hl
    · exact hpsr (by rw [herr]; rfl) ev hl
    · simp at hl
      rcases hl with hl | hl <;> subst hl <;> rfl

set_option maxRecDepth 10000

/-- Witness for C7: a one-file job that completes. -/
theorem completed_job_invariants_witness :
    (processBatchJob
      { tokenResult := .ok "tok"
        listResult := .ok [{ id := "f1", name := "cv.pdf", mimeType := "application/pdf" }]
        createSheetResult := .ok "sheet-1"
        headerAppendResult := .ok ()
        batchAppend := fun _ => .ok ()
        fileOutcome := fun _ _ => .ok
          { driveFileId := some "f1", sourceFile := some "cv.pdf", name := some "Alice"
            email := some "a@x.io", phone := none, linkedIn := none, gitHub := none
            confidence := 1, errors := [] }
        cancelFrom := none }
      { googleClientId := "client-1", googleClientSecret := none
        tesseractPath := "tesseract", maxConcurrentRequests := 5
        spreadsheetBatchSize := 10, maxRetries := 3
        retryDelaySeconds := 1, jobRetentionHours := 24 }
      { folderId := "folder", spreadsheetId := none }
      "job-1" []).finalStatus.progress = 100 :=
  (completed_job_invariants
    { tokenResult := .ok "tok"
      listResult := .ok [{ id := "f1", name := "cv.pdf", mimeType := "application/pdf" }]
      createSheetResult := .ok "sheet-1"
      headerAppendResult := .ok ()
      batchAppend := fun _ => .ok ()
      fileOutcome := fun _ _ => .ok
        { driveFileId := some "f1", sourceFile := some "cv.pdf", name := some "Alice"
          email := some "a@x.io", phone := none, linkedIn := none, gitHub := none
          confidence := 1, errors := [] }
      cancelFrom := none }
    { googleClientId := "client-1", googleClientSecret := none
      tesseractPath := "tesseract", maxConcurrentRequests := 5
      spreadsheetBatchSize := 10, maxRetries := 3
      retryDelaySeconds := 1, jobRetentionHours := 24 }
    { folderId := "folder", spreadsheetId := none }
    "job-1" [] (by decide)).2.1

/-- C1 counterexample: a two-file job (batch size 1) whose first batch
accumulates one parsed candidate and which is then cancelled at the second
batch boundary.  The terminal status is `Revoked` with `resultsCount = 1`,
yet no `save_results` write occurs anywhere in the run — the accumulated
partial result is dropped, refuting "persists the partial results
accumulated so far to the job store". -/
theorem aborted_job_drops_partial_results :
    (processBatchJob
      { tokenResult := .ok "tok"
        listResult := .ok
          [{ id := "f1", name := "a.pdf", mimeType := "application/pdf" },
           { id := "f2", name := "b.pdf", mimeType := "application/pdf" }]
        createSheetResult := .ok "sheet-1"
        headerAppendResult := .ok ()
        batchAppend := fun _ => .ok ()
        fileOutcome := fun _ _ => .ok
          { driveFileId := some "f1", sourceFile := some "a.pdf", name := some "Alice"
            email := none, phone := none, linkedIn := none, gitHub := none
            confidence := 1, errors := [] }
        cancelFrom := some 1 }
      { googleClientId := "client-1", googleClientSecret := none
        tesseractPath := "tesseract", maxConcurrentRequests := 5
        spreadsheetBatchSize := 1, maxRetries := 3
        retryDelaySeconds := 1, jobRetentionHours := 24 }
      { folderId := "folder", spreadsheetId := none }
      "job-1" []).finalStatus.status = .revoked ∧
    (processBatchJob
      { tokenResult := .ok "tok"
        listResult := .ok
          [{ id := "f1", name := "a.pdf", mimeType := "application/pdf" },
           { id := "f2", name := "b.pdf", mimeType := "application/pdf" }]
        createSheetResult := .ok "sheet-1"
        headerAppendResult := .ok ()
        batchAppend := fun _ => .ok ()
        fileOutcome := fun _ _ => .ok
          { driveFileId := some "f1", sourceFile := some "a.pdf", name := some "Alice"
            email := none, phone := none, linkedIn := none, gitHub := none
            confidence := 1, errors := [] }
        cancelFrom := some 1 }
      { googleClientId := "client-1", googleClientSecret := none
        tesseractPath := "tesseract", maxConcurrentRequests := 5
        spreadsheetBatchSize := 1, maxRetries := 3
        retryDelaySeconds := 1, jobRetentionHours := 24 }
      { folderId := "folder", spreadsheetId := none }
      "job-1" []).finalStatus.resultsCount = some 1 ∧
    ((processBatchJob
      { tokenResult := .ok "tok"
        listResult := .ok
          [{ id := "f1", name := "a.pdf", mimeType := "application/pdf" },
           { id := "f2", name := "b.pdf", mimeType := "application/pdf" }]
        createSheetResult := .ok "sheet-1"
        headerAppendResult := .ok ()
        batchAppend := fun _ => .ok ()
        fileOutcome := fun _ _ => .ok
          { driveFileId := some "f1", sourceFile := some "a.pdf", name := some "Alice"
            email := none, phone := none, linkedIn := none, gitHub := none
            confidence := 1, errors := [] }
        cancelFrom := some 1 }
      { googleClientId := "client-1", googleClientSecret := none
        tesseractPath := "tesseract", maxConcurrentRequests := 5
        spreadsheetBatchSize := 1, maxRetries := 3
        retryDelaySeconds := 1, jobRetentionHours := 24 }
      { folderId := "folder", spreadsheetId := none }
      "job-1" []).trace.filter isSavedResults) = [] :=
  ⟨rfl, rfl, rfl⟩

/-! ### C4 — what processedFiles counts -/

/-- C4 counterexample: a single file whose every download attempt fails
non-retryably yields a failure record with all contact fields empty — yet
the job completes with `processedFiles = 1`, because the record's Resume
Link cell (built from the file id) makes its row non-blank.  This refutes
"every per-file failure record ... is excluded from processedFiles". -/
theorem failure_record_counted_in_processed :
    (processBatchJob
      { tokenResult := .ok "tok"
        listResult := .ok [{ id := "abc", name := "cv.pdf", mimeType := "application/pdf" }]
        createSheetResult := .ok "sheet-1"
        headerAppendResult := .ok ()
        batchAppend := fun _ => .ok ()
        fileOutcome := fun _ _ => .error (.other "boom")
        cancelFrom := none }
      { googleClientId := "client-1", googleClientSecret := none
        tesseractPath := "tesseract", maxConcurrentRequests := 5
        spreadsheetBatchSize := 10, maxRetries := 3
        retryDelaySeconds := 1, jobRetentionHours := 24 }
      { folderId := "folder", spreadsheetId := none }
      "job-1" []).savedResultsFinal =
      some [{ driveFileId := some "abc", sourceFile := some "cv.pdf", name := none
              email := none, phone := none, linkedIn := none, gitHub := none
              confidence := 0, errors := ["Error processing file: boom"] }] ∧
    (processBatchJob
      { tokenResult := .ok "tok"
        listResult := .ok [{ id := "abc", name := "cv.pdf", mimeType := "application/pdf" }]
        createSheetResult := .ok "sheet-1"
        headerAppendResult := .ok ()
        batchAppend := fun _ => .ok ()
        fileOutcome := fun _ _ => .error (.other "boom")
        cancelFrom := none }
      { googleClientId := "client-1", googleClientSecret := none
        tesseractPath := "tesseract", maxConcurrentRequests := 5
        spreadsheetBatchSize := 10, maxRetries := 3
        retryDelaySeconds := 1, jobRetentionHours := 24 }
      { folderId := "folder", spreadsheetId := none }
      "job-1" []).finalStatus.processedFiles = 1 :=
  ⟨rfl, rfl⟩

/-- C4 (amended): after every run, `processedFiles` equals the cumulative
number of rows appended by data (`skipHeaderRow = true`) append calls —
the rows that survive the non-blank filter.  A candidate with a drive file
id always has a populated Resume Link cell, so per-file failure records
for files with an id are counted; only rows whose six cells are all blank
— in particular the missing-file-id record, which carries no id and no
contact fields — are excluded. -/
theorem processed_files_counts_appended_rows (env : PipelineEnv)
    (settings : RuntimeSettings) (req : BatchParseRequest) (jobId : String) :
    (runBatchPipeline env settings req jobId).processed =
      appendedRowCount (runBatchPipeline env settings req jobId).trace ∧
    (∀ (c : ParsedCandidate) (v : String), c.driveFileId = some v →
      (candidateRow c).get? 1 =
        some ("https://drive.google.com/file/d/" ++ v ++ "/view")) ∧
    rowNonBlank (candidateRow
      { driveFileId := some "abc", sourceFile := some "cv.pdf", name := none
        email := none, phone := none, linkedIn := none, gitHub := none
        confidence := 0, errors := ["Error processing file: boom"] }) = true ∧
    (∀ (fileName : Option String) (errs : List String),
      rowNonBlank (candidateRow (ParsedCandidate.empty fileName none errs)) = false) := by
  refine ⟨(runBatchPipeline_spec env settings req jobId).2.1, ?_, by decide, ?_⟩
  · intro c v hv
    unfold candidateRow
    rw [hv]
    rfl
  · intro fileName errs
    rfl

/-- Witness for C4 (amended): the Resume Link cell of a record with file id
`abc`. -/
theorem processed_files_counts_appended_rows_witness :
    (candidateRow
      { driveFileId := some "abc", sourceFile := some "cv.pdf", name := none
        email := none, phone := none, linkedIn := none, gitHub := none
        confidence := 0, errors := [] }).get? 1 =
      some "https://drive.google.com/file/d/abc/view" := by
  have h := (processed_files_counts_appended_rows
    { tokenResult := .ok "tok", listResult := .ok [], createSheetResult := .ok "s"
      headerAppendResult := .ok (), batchAppend := fun _ => .ok ()
      fileOutcome := fun _ _ => .error (.other "x"), cancelFrom := none }
    { googleClientId := "client-1", googleClientSecret := none
      tesseractPath := "tesseract", maxConcurrentRequests := 5
      spreadsheetBatchSize := 10, maxRetries := 3
      retryDelaySeconds := 1, jobRetentionHours := 24 }
    { folderId := "folder", spreadsheetId := none }
    "job-1").2.1
    { driveFileId := some "abc", sourceFile := some "cv.pdf", name := none
      email := none, phone := none, linkedIn := none, gitHub := none
      confidence := 0, errors := [] } "abc" rfl
  simpa using h

/-- Witness for C1 (amended): a job aborted by a sign-in-required token
failure ends `Failed` with that error message. -/
theorem aborted_job_terminal_write_witness :
    (processBatchJob
      { tokenResult := .error (.core (.auth .signInRequired "Google sign-in required."))
        listResult := .ok []
        createSheetResult := .ok "sheet-1"
        headerAppendResult := .ok ()
        batchAppend := fun _ => .ok ()
        fileOutcome := fun _ _ => .error (.other "unused")
        cancelFrom := none }
      { googleClientId := "client-1", googleClientSecret := none
        tesseractPath := "tesseract", maxConcurrentRequests := 5
        spreadsheetBatchSize := 10, maxRetries := 3
        retryDelaySeconds := 1, jobRetentionHours := 24 }
      { folderId := "folder", spreadsheetId := none }
      "job-1" []).finalStatus.error = some "Google sign-in required." :=
  (aborted_job_terminal_write
    { tokenResult := .error (.core (.auth .signInRequired "Google sign-in required."))
      listResult := .ok []
      createSheetResult := .ok "sheet-1"
      headerAppendResult := .ok ()
      batchAppend := fun _ => .ok ()
      fileOutcome := fun _ _ => .error (.other "unused")
      cancelFrom := none }
    { googleClientId := "client-1", googleClientSecret := none
      tesseractPath := "tesseract", maxConcurrentRequests := 5
      spreadsheetBatchSize := 10, maxRetries := 3
      retryDelaySeconds := 1, jobRetentionHours := 24 }
    { folderId := "folder", spreadsheetId := none }
    "job-1" []
    (.core (.auth .signInRequired "Google sign-in required."))
    (by decide)).2.1
